import Mathlib

/-!
# ENCE361 helicopter firmware: the tick scheduler and the background loop of main.c

main.c is orchestration code: an interrupt handler, a set of initialisers, five input
handlers and the background loop.  Its only variable is the file-static 32-bit counter
ticksCount.  Everything else it does is a call of a collaborator that lives in another
module (buttons4, switch, control, display, uart, altitude, yaw, motors) or in the
TivaWare driver library.

The embedding passes the program state explicitly.  A state holds ticksCount, the state
of everything outside main.c (the world, an arbitrary type) and the trace of what the
code has done so far.  The collaborators are a parameter: an environment gives, for every
call, its effect on the world and, for the four calls whose result main.c uses, the value
returned.  Since ticksCount has internal linkage and its address is never taken, no
collaborator can touch it.
-/

namespace Helicopter

/-! ## Data model -/

/-- Button identifiers main.c passes to checkButton (enumeration butNames of buttons4.h). -/
inductive butNames
  | UP
  | DOWN
  | LEFT
  | RIGHT
  deriving DecidableEq

/-- Functions defined in main.c. -/
inductive Fn
  | SysTickIntHandler
  | initClock
  | initSysTick
  | initResetBut
  | buttonUp
  | buttonDown
  | buttonLeft
  | buttonRight
  | switched
  | buttonReset
  | initAll
  deriving DecidableEq

/-- Calls main.c makes to code outside main.c, with their arguments.  The four calls whose
result main.c uses (SysCtlClockGet, checkButton, checkSwitch, GPIOPinRead) also carry the
value that was returned. -/
inductive Call
  | updateButtons
  | updateSwitch
  | refPulse
  | piMainUpdate
  | piTailUpdate
  | ADCProcessorTrigger (base seq : Nat)
  | SysCtlClockSet (config : Nat)
  | SysCtlClockGet (result : Nat)
  | SysTickPeriodSet (period : Nat)
  | SysTickIntRegister (handler : Fn)
  | SysTickIntEnable
  | SysTickEnable
  | SysCtlPeripheralEnable (periph : Nat)
  | GPIOPinTypeGPIOInput (port pins : Nat)
  | GPIOPadConfigSet (port pins strength padType : Nat)
  | GPIODirModeSet (port pins mode : Nat)
  | checkButton (b : butNames) (result : Nat)
  | incrAlt
  | decrAlt
  | decrYaw
  | incrYaw
  | checkSwitch (result : Nat)
  | findRefStart
  | GPIOPinRead (port pins result : Nat)
  | SysCtlReset
  | initialiseUSB_UART
  | initialiseMainPWM
  | initialiseTailPWM
  | initADC
  | initADCCircBuf
  | SysCtlPeripheralReset (periph : Nat)
  | initButtons
  | initSwitch
  | initDisplay
  | initYawRef
  | initYawGPIO
  | IntMasterEnable
  | ProcessAltData
  | displayStats
  | consoleMsgSpaced
  deriving DecidableEq

/-- One observable step of main.c: entering one of its own functions through a call,
calling a collaborator, or accessing ticksCount (the test of line 195, the increment of
line 64 with the value stored, the store of zero of line 204). -/
inductive Event
  | enter (f : Fn)
  | call (c : Call)
  | tickTest (observed : Nat)
  | tickIncr (stored : Nat)
  | tickClear
  deriving DecidableEq

/-- The collaborators of main.c over a world W: the constants of headers that are not
part of main.c, the effect of every call on the world, and the value returned by the four
calls whose result main.c uses. -/
structure Env (W : Type) where
  ADC0_BASE : Nat
  SYSCTL_SYSDIV_10 : Nat
  SYSCTL_USE_PLL : Nat
  SYSCTL_OSC_MAIN : Nat
  SYSCTL_XTAL_16MHZ : Nat
  SYSCTL_PERIPH_GPIOA : Nat
  GPIO_PORTA_BASE : Nat
  GPIO_PIN_6 : Nat
  GPIO_STRENGTH_2MA : Nat
  GPIO_PIN_TYPE_STD_WPD : Nat
  GPIO_DIR_MODE_IN : Nat
  LEFT_BUT_PERIPH : Nat
  UP_BUT_PERIPH : Nat
  PUSHED : Nat
  effect : Call → W → W
  SysCtlClockGet : W → Nat
  checkButton : butNames → W → Nat
  checkSwitch : W → Nat
  GPIOPinRead : Nat → Nat → W → Nat

/-- Program state: the static variable of main.c, the world outside it, and the trace. -/
structure State (W : Type) where
  ticksCount : Nat
  world : W
  trace : List Event

/-- How a function that may request a device restart hands control back: it returns to
its caller (next) or the device restarts and the call never returns (restart). -/
inductive Ctl
  | next
  | restart
  deriving DecidableEq

/-- SYS_TICK_RATE of main.c line 37. -/
def SYS_TICK_RATE : Nat := 200

/-- Number of values of the uint32_t counter. -/
def UINT32_MOD : Nat := 2 ^ 32

variable {W : Type}

/-- Record an event that has no effect outside main.c. -/
def State.note (e : Event) (s : State W) : State W :=
  { s with trace := s.trace ++ [e] }

/-- Call a collaborator: the world changes as the environment says, the call is traced. -/
def State.emit (env : Env W) (c : Call) (s : State W) : State W :=
  { s with world := env.effect c s.world, trace := s.trace ++ [Event.call c] }

/-! ## The functions of main.c -/

/-- Lines 45-65: the SysTick interrupt handler. -/
def SysTickIntHandler (env : Env W) (s : State W) : State W :=
  let s := s.emit env Call.updateButtons
  let s := s.emit env Call.updateSwitch
  let s := s.emit env Call.refPulse
  let s := s.emit env Call.piMainUpdate
  let s := s.emit env Call.piTailUpdate
  let s := s.emit env (Call.ADCProcessorTrigger env.ADC0_BASE 3)
  let v := (s.ticksCount + 1) % UINT32_MOD
  { s with ticksCount := v, trace := s.trace ++ [Event.tickIncr v] }

/-- Lines 69-75. -/
def initClock (env : Env W) (s : State W) : State W :=
  let s := s.note (Event.enter Fn.initClock)
  s.emit env (Call.SysCtlClockSet
    (env.SYSCTL_SYSDIV_10 ||| env.SYSCTL_USE_PLL ||| env.SYSCTL_OSC_MAIN ||| env.SYSCTL_XTAL_16MHZ))

/-- Lines 78-90. -/
def initSysTick (env : Env W) (s : State W) : State W :=
  let s := s.note (Event.enter Fn.initSysTick)
  let clock := env.SysCtlClockGet s.world
  let s := s.emit env (Call.SysCtlClockGet clock)
  let s := s.emit env (Call.SysTickPeriodSet (clock / SYS_TICK_RATE))
  let s := s.emit env (Call.SysTickIntRegister Fn.SysTickIntHandler)
  let s := s.emit env Call.SysTickIntEnable
  s.emit env Call.SysTickEnable

/-- Lines 94-101. -/
def initResetBut (env : Env W) (s : State W) : State W :=
  let s := s.note (Event.enter Fn.initResetBut)
  let s := s.emit env (Call.SysCtlPeripheralEnable env.SYSCTL_PERIPH_GPIOA)
  let s := s.emit env (Call.GPIOPinTypeGPIOInput env.GPIO_PORTA_BASE env.GPIO_PIN_6)
  let s := s.emit env (Call.GPIOPadConfigSet env.GPIO_PORTA_BASE env.GPIO_PIN_6
    env.GPIO_STRENGTH_2MA env.GPIO_PIN_TYPE_STD_WPD)
  s.emit env (Call.GPIODirModeSet env.GPIO_PORTA_BASE env.GPIO_PIN_6 env.GPIO_DIR_MODE_IN)

/-- Lines 105-111. -/
def buttonUp (env : Env W) (s : State W) : State W :=
  let s := s.note (Event.enter Fn.buttonUp)
  let r := env.checkButton butNames.UP s.world
  let s := s.emit env (Call.checkButton butNames.UP r)
  if r = env.PUSHED then s.emit env Call.incrAlt else s

/-- Lines 115-121. -/
def buttonDown (env : Env W) (s : State W) : State W :=
  let s := s.note (Event.enter Fn.buttonDown)
  let r := env.checkButton butNames.DOWN s.world
  let s := s.emit env (Call.checkButton butNames.DOWN r)
  if r = env.PUSHED then s.emit env Call.decrAlt else s

/-- Lines 125-131. -/
def buttonLeft (env : Env W) (s : State W) : State W :=
  let s := s.note (Event.enter Fn.buttonLeft)
  let r := env.checkButton butNames.LEFT s.world
  let s := s.emit env (Call.checkButton butNames.LEFT r)
  if r = env.PUSHED then s.emit env Call.decrYaw else s

/-- Lines 135-141. -/
def buttonRight (env : Env W) (s : State W) : State W :=
  let s := s.note (Event.enter Fn.buttonRight)
  let r := env.checkButton butNames.RIGHT s.world
  let s := s.emit env (Call.checkButton butNames.RIGHT r)
  if r = env.PUSHED then s.emit env Call.incrYaw else s

/-- Lines 146-152. -/
def switched (env : Env W) (s : State W) : State W :=
  let s := s.note (Event.enter Fn.switched)
  let r := env.checkSwitch s.world
  let s := s.emit env (Call.checkSwitch r)
  if r ≠ 0 then s.emit env Call.findRefStart else s

/-- Lines 156-162.  SysCtlReset restarts the device and does not return to its caller, so
the function hands back restart after calling it. -/
def buttonReset (env : Env W) (s : State W) : Ctl × State W :=
  let s := s.note (Event.enter Fn.buttonReset)
  let r := env.GPIOPinRead env.GPIO_PORTA_BASE env.GPIO_PIN_6 s.world
  let s := s.emit env (Call.GPIOPinRead env.GPIO_PORTA_BASE env.GPIO_PIN_6 r)
  if r = 0 then (Ctl.restart, s.emit env Call.SysCtlReset) else (Ctl.next, s)

/-- Lines 166-185. -/
def initAll (env : Env W) (s : State W) : State W :=
  let s := s.note (Event.enter Fn.initAll)
  let s := initClock env s
  let s := s.emit env Call.initialiseUSB_UART
  let s := s.emit env Call.initialiseMainPWM
  let s := s.emit env Call.initialiseTailPWM
  let s := s.emit env Call.initADC
  let s := s.emit env Call.initADCCircBuf
  let s := initResetBut env s
  let s := s.emit env (Call.SysCtlPeripheralReset env.LEFT_BUT_PERIPH)
  let s := s.emit env (Call.SysCtlPeripheralReset env.UP_BUT_PERIPH)
  let s := s.emit env Call.initButtons
  let s := s.emit env Call.initSwitch
  let s := s.emit env Call.initDisplay
  let s := s.emit env Call.initYawRef
  let s := s.emit env Call.initYawGPIO
  let s := initSysTick env s
  s.emit env Call.IntMasterEnable

/-- Line 204: the store ticksCount = 0. -/
def clearTicks (s : State W) : State W :=
  { s with ticksCount := 0, trace := s.trace ++ [Event.tickClear] }

/-- Lines 195-206: one iteration of the while (1) loop of main, run without an interrupt
in between. -/
def loopBody (env : Env W) (s : State W) : Ctl × State W :=
  let c := s.ticksCount
  let s := s.note (Event.tickTest c)
  if c > 0 then
    let s := s.emit env Call.ProcessAltData
    let s := s.emit env Call.displayStats
    let s := buttonUp env s
    let s := buttonDown env s
    let s := buttonLeft env s
    let s := buttonRight env s
    let s := switched env s
    match buttonReset env s with
    | (Ctl.restart, s) => (Ctl.restart, s)
    | (Ctl.next, s) =>
      let s := clearTicks s
      (Ctl.next, s.emit env Call.consoleMsgSpaced)
  else (Ctl.next, s)

/-- An environment over the trivial world whose polls give fixed results: every button
poll returns but, the switch poll returns sw and a pin read returns pin.  PUSHED is 1. -/
def fixedEnv (but sw pin : Nat) : Env Unit where
  ADC0_BASE := 0x40038000
  SYSCTL_SYSDIV_10 := 0x04C00000
  SYSCTL_USE_PLL := 0
  SYSCTL_OSC_MAIN := 0
  SYSCTL_XTAL_16MHZ := 0x540
  SYSCTL_PERIPH_GPIOA := 0xf0000800
  GPIO_PORTA_BASE := 0x40004000
  GPIO_PIN_6 := 0x40
  GPIO_STRENGTH_2MA := 1
  GPIO_PIN_TYPE_STD_WPD := 0xC
  GPIO_DIR_MODE_IN := 0
  LEFT_BUT_PERIPH := 0xf0000805
  UP_BUT_PERIPH := 0xf0000804
  PUSHED := 1
  effect := fun _ w => w
  SysCtlClockGet := fun _ => 20000000
  checkButton := fun _ _ => but
  checkSwitch := fun _ => sw
  GPIOPinRead := fun _ _ _ => pin

/-- The state of a freshly started program: ticksCount is zero-initialised static storage
and nothing has happened yet. -/
def State.start (w : W) : State W :=
  { ticksCount := 0, world := w, trace := [] }

/-! ## The background loop under interrupts -/

/-- Where the background context stands in the loop of main: before the test of line 195,
before one of the ten statements of lines 196-205, or nowhere any more because the device
has been restarted. -/
inductive Pc
  | test
  | processAltData
  | displayStats
  | buttonUp
  | buttonDown
  | buttonLeft
  | buttonRight
  | switched
  | buttonReset
  | clear
  | console
  | restarted
  deriving DecidableEq

/-- The interrupt-driven system: the program state, the position of the background
context, and three counters kept for the analysis of the tick handoff: the value seen by
the latest successful test of ticksCount (observed), the sum of the values seen by the
read-resets whose store has executed (returned), and the number of handler invocations
(fired). -/
structure Machine (W : Type) where
  st : State W
  pc : Pc
  observed : Nat
  returned : Nat
  fired : Nat

/-- What happens next: the SysTick interrupt fires, or the background context executes
its next statement. -/
inductive Action
  | irq
  | bg
  deriving DecidableEq

/-- Lines 190-192: main has called initAll and stands before its loop. -/
def Machine.boot (env : Env W) (w : W) : Machine W :=
  { st := initAll env (State.start w), pc := Pc.test, observed := 0, returned := 0, fired := 0 }

/-- The background context executes its next statement (lines 195-205, one at a time). -/
def bgStep (env : Env W) (m : Machine W) : Machine W :=
  match m.pc with
  | Pc.test =>
    let c := m.st.ticksCount
    let s := m.st.note (Event.tickTest c)
    if c > 0 then { m with st := s, pc := Pc.processAltData, observed := c }
    else { m with st := s }
  | Pc.processAltData => { m with st := m.st.emit env Call.ProcessAltData, pc := Pc.displayStats }
  | Pc.displayStats => { m with st := m.st.emit env Call.displayStats, pc := Pc.buttonUp }
  | Pc.buttonUp => { m with st := buttonUp env m.st, pc := Pc.buttonDown }
  | Pc.buttonDown => { m with st := buttonDown env m.st, pc := Pc.buttonLeft }
  | Pc.buttonLeft => { m with st := buttonLeft env m.st, pc := Pc.buttonRight }
  | Pc.buttonRight => { m with st := buttonRight env m.st, pc := Pc.switched }
  | Pc.switched => { m with st := switched env m.st, pc := Pc.buttonReset }
  | Pc.buttonReset =>
    match buttonReset env m.st with
    | (Ctl.restart, s) => { m with st := s, pc := Pc.restarted }
    | (Ctl.next, s) => { m with st := s, pc := Pc.clear }
  | Pc.clear =>
    { m with st := clearTicks m.st, pc := Pc.console, returned := m.returned + m.observed }
  | Pc.console => { m with st := m.st.emit env Call.consoleMsgSpaced, pc := Pc.test }
  | Pc.restarted => m

/-- The SysTick interrupt fires: the handler runs to completion before the background
context continues.  After a restart the run is over and nothing happens any more. -/
def irqStep (env : Env W) (m : Machine W) : Machine W :=
  match m.pc with
  | Pc.restarted => m
  | _ => { m with st := SysTickIntHandler env m.st, fired := m.fired + 1 }

/-- One action of a schedule. -/
def step (env : Env W) (a : Action) (m : Machine W) : Machine W :=
  match a with
  | Action.irq => irqStep env m
  | Action.bg => bgStep env m

/-- Run a schedule, first action first. -/
def run (env : Env W) : List Action → Machine W → Machine W
  | [], m => m
  | a :: rest, m => run env rest (step env a m)

/-- Lines 189-208: main calls initAll and then loops for ever; the schedule says where the
interrupt fires between the statements of the loop. -/
def main (env : Env W) (w : W) (sched : List Action) : Machine W :=
  run env sched (Machine.boot env w)

/-- The background context is inside a read-reset: its test of line 195 has succeeded and
its store of line 204 has not executed yet. -/
def Pc.inReadReset : Pc → Bool
  | Pc.processAltData => true
  | Pc.displayStats => true
  | Pc.buttonUp => true
  | Pc.buttonDown => true
  | Pc.buttonLeft => true
  | Pc.buttonRight => true
  | Pc.switched => true
  | Pc.buttonReset => true
  | Pc.clear => true
  | _ => false

/-- The schedule never lets the interrupt fire inside a read-reset of the run from m. -/
def readResetUndisturbed (env : Env W) : List Action → Machine W → Bool
  | [], _ => true
  | Action.irq :: rest, m => !m.pc.inReadReset && readResetUndisturbed env rest (irqStep env m)
  | Action.bg :: rest, m => readResetUndisturbed env rest (bgStep env m)

/-- Number of interrupt firings a schedule asks for. -/
def irqCount (sched : List Action) : Nat :=
  sched.count Action.irq

/-! ## Observers of the trace -/

/-- The event is a write of ticksCount. -/
def Event.writesTicks : Event → Bool
  | Event.tickIncr _ => true
  | Event.tickClear => true
  | _ => false

/-- The event is a poll of button b through checkButton, whatever it returned. -/
def Event.isPoll (b : butNames) : Event → Bool
  | Event.call (Call.checkButton b' _) => decide (b' = b)
  | _ => false

/-- The event is a poll of the mode switch through checkSwitch, whatever it returned. -/
def Event.isSwitchPoll : Event → Bool
  | Event.call (Call.checkSwitch _) => true
  | _ => false

/-- The event is a read of a GPIO pin, whichever pin and whatever it returned. -/
def Event.isPinRead : Event → Bool
  | Event.call (Call.GPIOPinRead _ _ _) => true
  | _ => false

/-- The event is the call of a collaborator. -/
def Event.isCall : Event → Bool
  | Event.call _ => true
  | _ => false

/-- An environment whose world is the list of the collaborator calls made so far, newest
first.  Button b polls as but b, the switch poll returns sw of the world, a pin read
returns pin and the clock is 20 MHz.  PUSHED is 1. -/
def logEnv (but : butNames → Nat) (sw : List Call → Nat) (pin : Nat) : Env (List Call) where
  ADC0_BASE := 0x40038000
  SYSCTL_SYSDIV_10 := 0x04C00000
  SYSCTL_USE_PLL := 0
  SYSCTL_OSC_MAIN := 0
  SYSCTL_XTAL_16MHZ := 0x540
  SYSCTL_PERIPH_GPIOA := 0xf0000800
  GPIO_PORTA_BASE := 0x40004000
  GPIO_PIN_6 := 0x40
  GPIO_STRENGTH_2MA := 1
  GPIO_PIN_TYPE_STD_WPD := 0xC
  GPIO_DIR_MODE_IN := 0
  LEFT_BUT_PERIPH := 0xf0000805
  UP_BUT_PERIPH := 0xf0000804
  PUSHED := 1
  effect := fun c w => c :: w
  SysCtlClockGet := fun _ => 20000000
  checkButton := fun b _ => but b
  checkSwitch := sw
  GPIOPinRead := fun _ _ _ => pin

/-- Button results for the sample runs: UP and RIGHT are pushed (1), DOWN is released (0)
and LEFT has not changed (2). -/
def upRightPushed : butNames → Nat
  | butNames.UP => 1
  | butNames.DOWN => 0
  | butNames.LEFT => 2
  | butNames.RIGHT => 1

/-! ## Basic facts about the state primitives -/

@[simp] theorem State.note_ticksCount (e : Event) (s : State W) :
    (s.note e).ticksCount = s.ticksCount := rfl

@[simp] theorem State.note_world (e : Event) (s : State W) :
    (s.note e).world = s.world := rfl

@[simp] theorem State.note_trace (e : Event) (s : State W) :
    (s.note e).trace = s.trace ++ [e] := rfl

@[simp] theorem State.emit_ticksCount (env : Env W) (c : Call) (s : State W) :
    (s.emit env c).ticksCount = s.ticksCount := rfl

@[simp] theorem State.emit_world (env : Env W) (c : Call) (s : State W) :
    (s.emit env c).world = env.effect c s.world := rfl

@[simp] theorem State.emit_trace (env : Env W) (c : Call) (s : State W) :
    (s.emit env c).trace = s.trace ++ [Event.call c] := rfl

@[simp] theorem clearTicks_ticksCount (s : State W) : (clearTicks s).ticksCount = 0 := rfl

@[simp] theorem clearTicks_world (s : State W) : (clearTicks s).world = s.world := rfl

@[simp] theorem clearTicks_trace (s : State W) :
    (clearTicks s).trace = s.trace ++ [Event.tickClear] := rfl

/-! ## The tick handler -/

theorem SysTickIntHandler_ticksCount (env : Env W) (s : State W) :
    (SysTickIntHandler env s).ticksCount = (s.ticksCount + 1) % UINT32_MOD := rfl

theorem SysTickIntHandler_trace (env : Env W) (s : State W) :
    (SysTickIntHandler env s).trace = s.trace ++
      [Event.call Call.updateButtons, Event.call Call.updateSwitch, Event.call Call.refPulse,
       Event.call Call.piMainUpdate, Event.call Call.piTailUpdate,
       Event.call (Call.ADCProcessorTrigger env.ADC0_BASE 3),
       Event.tickIncr ((s.ticksCount + 1) % UINT32_MOD)] := by
  simp [SysTickIntHandler]

theorem SysTickIntHandler_iterate_ticksCount (env : Env W) (k : Nat) (s : State W)
    (h : s.ticksCount + k < UINT32_MOD) :
    ((SysTickIntHandler env)^[k] s).ticksCount = s.ticksCount + k := by
  induction k generalizing s with
  | zero => rfl
  | succ n ih =>
    have h1 : (SysTickIntHandler env s).ticksCount = s.ticksCount + 1 := by
      rw [SysTickIntHandler_ticksCount]
      exact Nat.mod_eq_of_lt (by omega)
    rw [Function.iterate_succ_apply, ih _ (by omega), h1]
    omega

/-! ## The input handlers -/

theorem buttonUp_spec (env : Env W) (s : State W) :
    ∃ r, (buttonUp env s).trace = s.trace ++
        ([Event.enter Fn.buttonUp, Event.call (Call.checkButton butNames.UP r)] ++
          if r = env.PUSHED then [Event.call Call.incrAlt] else []) ∧
      (buttonUp env s).ticksCount = s.ticksCount := by
  refine ⟨env.checkButton butNames.UP s.world, ?_⟩
  unfold buttonUp
  by_cases h : env.checkButton butNames.UP s.world = env.PUSHED <;> simp [h]

theorem buttonDown_spec (env : Env W) (s : State W) :
    ∃ r, (buttonDown env s).trace = s.trace ++
        ([Event.enter Fn.buttonDown, Event.call (Call.checkButton butNames.DOWN r)] ++
          if r = env.PUSHED then [Event.call Call.decrAlt] else []) ∧
      (buttonDown env s).ticksCount = s.ticksCount := by
  refine ⟨env.checkButton butNames.DOWN s.world, ?_⟩
  unfold buttonDown
  by_cases h : env.checkButton butNames.DOWN s.world = env.PUSHED <;> simp [h]

theorem buttonLeft_spec (env : Env W) (s : State W) :
    ∃ r, (buttonLeft env s).trace = s.trace ++
        ([Event.enter Fn.buttonLeft, Event.call (Call.checkButton butNames.LEFT r)] ++
          if r = env.PUSHED then [Event.call Call.decrYaw] else []) ∧
      (buttonLeft env s).ticksCount = s.ticksCount := by
  refine ⟨env.checkButton butNames.LEFT s.world, ?_⟩
  unfold buttonLeft
  by_cases h : env.checkButton butNames.LEFT s.world = env.PUSHED <;> simp [h]

theorem buttonRight_spec (env : Env W) (s : State W) :
    ∃ r, (buttonRight env s).trace = s.trace ++
        ([Event.enter Fn.buttonRight, Event.call (Call.checkButton butNames.RIGHT r)] ++
          if r = env.PUSHED then [Event.call Call.incrYaw] else []) ∧
      (buttonRight env s).ticksCount = s.ticksCount := by
  refine ⟨env.checkButton butNames.RIGHT s.world, ?_⟩
  unfold buttonRight
  by_cases h : env.checkButton butNames.RIGHT s.world = env.PUSHED <;> simp [h]

theorem switched_spec (env : Env W) (s : State W) :
    ∃ r, (switched env s).trace = s.trace ++
        ([Event.enter Fn.switched, Event.call (Call.checkSwitch r)] ++
          if r ≠ 0 then [Event.call Call.findRefStart] else []) ∧
      (switched env s).ticksCount = s.ticksCount := by
  refine ⟨env.checkSwitch s.world, ?_⟩
  unfold switched
  by_cases h : env.checkSwitch s.world = 0 <;> simp [h]

theorem buttonReset_spec (env : Env W) (s : State W) :
    ∃ r, (buttonReset env s).2.trace = s.trace ++
        ([Event.enter Fn.buttonReset,
          Event.call (Call.GPIOPinRead env.GPIO_PORTA_BASE env.GPIO_PIN_6 r)] ++
          if r = 0 then [Event.call Call.SysCtlReset] else []) ∧
      (buttonReset env s).2.ticksCount = s.ticksCount ∧
      (buttonReset env s).1 = (if r = 0 then Ctl.restart else Ctl.next) := by
  refine ⟨env.GPIOPinRead env.GPIO_PORTA_BASE env.GPIO_PIN_6 s.world, ?_⟩
  unfold buttonReset
  by_cases h : env.GPIOPinRead env.GPIO_PORTA_BASE env.GPIO_PIN_6 s.world = 0 <;> simp [h]

/-! ## One iteration of the background loop -/

theorem loopBody_idle (env : Env W) (s : State W) (h : s.ticksCount = 0) :
    loopBody env s = (Ctl.next, s.note (Event.tickTest 0)) := by
  simp [loopBody, h]

/-- The events of an iteration that finds ticksCount nonzero, in order, in terms of the
six values polled on the way. -/
theorem loopBody_spec (env : Env W) (s : State W) (h : 0 < s.ticksCount) :
    ∃ rU rD rL rR rS rP : Nat,
      (loopBody env s).2.trace = s.trace ++
        ([Event.tickTest s.ticksCount, Event.call Call.ProcessAltData,
          Event.call Call.displayStats] ++
         ([Event.enter Fn.buttonUp, Event.call (Call.checkButton butNames.UP rU)] ++
            if rU = env.PUSHED then [Event.call Call.incrAlt] else []) ++
         ([Event.enter Fn.buttonDown, Event.call (Call.checkButton butNames.DOWN rD)] ++
            if rD = env.PUSHED then [Event.call Call.decrAlt] else []) ++
         ([Event.enter Fn.buttonLeft, Event.call (Call.checkButton butNames.LEFT rL)] ++
            if rL = env.PUSHED then [Event.call Call.decrYaw] else []) ++
         ([Event.enter Fn.buttonRight, Event.call (Call.checkButton butNames.RIGHT rR)] ++
            if rR = env.PUSHED then [Event.call Call.incrYaw] else []) ++
         ([Event.enter Fn.switched, Event.call (Call.checkSwitch rS)] ++
            if rS ≠ 0 then [Event.call Call.findRefStart] else []) ++
         [Event.enter Fn.buttonReset,
          Event.call (Call.GPIOPinRead env.GPIO_PORTA_BASE env.GPIO_PIN_6 rP)] ++
         (if rP = 0 then [Event.call Call.SysCtlReset]
          else [Event.tickClear, Event.call Call.consoleMsgSpaced])) ∧
      (loopBody env s).1 = (if rP = 0 then Ctl.restart else Ctl.next) ∧
      (loopBody env s).2.ticksCount = (if rP = 0 then s.ticksCount else 0) := by
  obtain ⟨rU, hU, hU2⟩ := buttonUp_spec env
    (((s.note (Event.tickTest s.ticksCount)).emit env Call.ProcessAltData).emit env
      Call.displayStats)
  obtain ⟨rD, hD, hD2⟩ := buttonDown_spec env (buttonUp env
    (((s.note (Event.tickTest s.ticksCount)).emit env Call.ProcessAltData).emit env
      Call.displayStats))
  obtain ⟨rL, hL, hL2⟩ := buttonLeft_spec env (buttonDown env (buttonUp env
    (((s.note (Event.tickTest s.ticksCount)).emit env Call.ProcessAltData).emit env
      Call.displayStats)))
  obtain ⟨rR, hR, hR2⟩ := buttonRight_spec env (buttonLeft env (buttonDown env (buttonUp env
    (((s.note (Event.tickTest s.ticksCount)).emit env Call.ProcessAltData).emit env
      Call.displayStats))))
  obtain ⟨rS, hS, hS2⟩ := switched_spec env (buttonRight env (buttonLeft env (buttonDown env
    (buttonUp env
    (((s.note (Event.tickTest s.ticksCount)).emit env Call.ProcessAltData).emit env
      Call.displayStats)))))
  obtain ⟨rP, hP, hP2, hP3⟩ := buttonReset_spec env (switched env (buttonRight env
    (buttonLeft env (buttonDown env (buttonUp env
    (((s.note (Event.tickTest s.ticksCount)).emit env Call.ProcessAltData).emit env
      Call.displayStats))))))
  refine ⟨rU, rD, rL, rR, rS, rP, ?_⟩
  rw [hS, hR, hL, hD, hU] at hP
  rw [hS2, hR2, hL2, hD2, hU2] at hP2
  simp only [State.emit_trace, State.note_trace, State.emit_ticksCount,
    State.note_ticksCount] at hP hP2
  unfold loopBody
  simp only [gt_iff_lt, h, if_true]
  split
  · rename_i s' heq
    have e1 : (Ctl.restart, s').1 = (if rP = 0 then Ctl.restart else Ctl.next) := by
      rw [← heq]; exact hP3
    have e2 : (Ctl.restart, s').2 = s' := rfl
    rw [heq] at hP hP2
    by_cases hr : rP = 0
    · simp only [hr, if_true] at hP hP2 ⊢
      refine ⟨?_, trivial, hP2⟩
      rw [hP]; simp
    · simp [hr] at e1
  · rename_i s' heq
    have e1 : (Ctl.next, s').1 = (if rP = 0 then Ctl.restart else Ctl.next) := by
      rw [← heq]; exact hP3
    rw [heq] at hP hP2
    by_cases hr : rP = 0
    · simp [hr] at e1
    · simp only [hr, if_false] at hP hP2 ⊢
      refine ⟨?_, trivial, ?_⟩
      · simp only [State.emit_trace, clearTicks_trace]
        rw [hP]; simp
      · simp

/-! ## Two runs of an input handler from states with the same world -/

theorem buttonUp_congr (env : Env W) (s t : State W) (h : s.world = t.world) :
    (buttonUp env s).world = (buttonUp env t).world ∧
      ∃ ev, (buttonUp env s).trace = s.trace ++ ev ∧ (buttonUp env t).trace = t.trace ++ ev := by
  unfold buttonUp
  simp only [State.note_world, h]
  split_ifs <;> exact ⟨by simp [h], _,
    by simp only [State.emit_trace, State.note_trace, List.append_assoc]; rfl, by simp⟩

theorem buttonDown_congr (env : Env W) (s t : State W) (h : s.world = t.world) :
    (buttonDown env s).world = (buttonDown env t).world ∧
      ∃ ev, (buttonDown env s).trace = s.trace ++ ev ∧
        (buttonDown env t).trace = t.trace ++ ev := by
  unfold buttonDown
  simp only [State.note_world, h]
  split_ifs <;> exact ⟨by simp [h], _,
    by simp only [State.emit_trace, State.note_trace, List.append_assoc]; rfl, by simp⟩

theorem buttonLeft_congr (env : Env W) (s t : State W) (h : s.world = t.world) :
    (buttonLeft env s).world = (buttonLeft env t).world ∧
      ∃ ev, (buttonLeft env s).trace = s.trace ++ ev ∧
        (buttonLeft env t).trace = t.trace ++ ev := by
  unfold buttonLeft
  simp only [State.note_world, h]
  split_ifs <;> exact ⟨by simp [h], _,
    by simp only [State.emit_trace, State.note_trace, List.append_assoc]; rfl, by simp⟩

theorem buttonRight_congr (env : Env W) (s t : State W) (h : s.world = t.world) :
    (buttonRight env s).world = (buttonRight env t).world ∧
      ∃ ev, (buttonRight env s).trace = s.trace ++ ev ∧
        (buttonRight env t).trace = t.trace ++ ev := by
  unfold buttonRight
  simp only [State.note_world, h]
  split_ifs <;> exact ⟨by simp [h], _,
    by simp only [State.emit_trace, State.note_trace, List.append_assoc]; rfl, by simp⟩

theorem switched_congr (env : Env W) (s t : State W) (h : s.world = t.world) :
    (switched env s).world = (switched env t).world ∧
      ∃ ev, (switched env s).trace = s.trace ++ ev ∧ (switched env t).trace = t.trace ++ ev := by
  unfold switched
  simp only [State.note_world, h]
  split_ifs <;> exact ⟨by simp [h], _,
    by simp only [State.emit_trace, State.note_trace, List.append_assoc]; rfl, by simp⟩

theorem buttonReset_congr (env : Env W) (s t : State W) (h : s.world = t.world) :
    (buttonReset env s).1 = (buttonReset env t).1 ∧
      ∃ ev, (buttonReset env s).2.trace = s.trace ++ ev ∧
        (buttonReset env t).2.trace = t.trace ++ ev := by
  unfold buttonReset
  simp only [State.note_world, h]
  split_ifs <;> exact ⟨rfl, _,
    by simp only [State.emit_trace, State.note_trace, List.append_assoc]; rfl, by simp⟩

/-- Two iterations that start in the same world, with the same trace and with ticksCount
nonzero, emit the same events after the test of ticksCount. -/
theorem loopBody_congr (env : Env W) (s t : State W) (hw : s.world = t.world)
    (ht : s.trace = t.trace) (h1 : 0 < s.ticksCount) (h2 : 0 < t.ticksCount) :
    ∃ ev, (loopBody env s).2.trace = s.trace ++ Event.tickTest s.ticksCount :: ev ∧
      (loopBody env t).2.trace = s.trace ++ Event.tickTest t.ticksCount :: ev := by
  have hA : (((s.note (Event.tickTest s.ticksCount)).emit env Call.ProcessAltData).emit env
      Call.displayStats).world =
      (((t.note (Event.tickTest t.ticksCount)).emit env Call.ProcessAltData).emit env
      Call.displayStats).world := by simp [hw]
  obtain ⟨hU, eU, aU, bU⟩ := buttonUp_congr env _ _ hA
  obtain ⟨hD, eD, aD, bD⟩ := buttonDown_congr env _ _ hU
  obtain ⟨hL, eL, aL, bL⟩ := buttonLeft_congr env _ _ hD
  obtain ⟨hR, eR, aR, bR⟩ := buttonRight_congr env _ _ hL
  obtain ⟨hS, eS, aS, bS⟩ := switched_congr env _ _ hR
  obtain ⟨hP, eP, aP, bP⟩ := buttonReset_congr env _ _ hS
  rw [aS, aR, aL, aD, aU] at aP
  rw [bS, bR, bL, bD, bU] at bP
  simp only [State.emit_trace, State.note_trace] at aP bP
  unfold loopBody
  simp only [gt_iff_lt, h1, h2, if_true]
  revert hP aP bP
  generalize buttonReset env (switched env (buttonRight env (buttonLeft env (buttonDown env
    (buttonUp env (((s.note (Event.tickTest s.ticksCount)).emit env Call.ProcessAltData).emit
      env Call.displayStats)))))) = p
  generalize buttonReset env (switched env (buttonRight env (buttonLeft env (buttonDown env
    (buttonUp env (((t.note (Event.tickTest t.ticksCount)).emit env Call.ProcessAltData).emit
      env Call.displayStats)))))) = q
  obtain ⟨c, x⟩ := p
  obtain ⟨d, y⟩ := q
  intro hP aP bP
  simp only at hP aP bP
  subst hP
  cases c
  · refine ⟨[Event.call Call.ProcessAltData, Event.call Call.displayStats] ++ eU ++ eD ++ eL ++
      eR ++ eS ++ eP ++ [Event.tickClear, Event.call Call.consoleMsgSpaced], ?_, ?_⟩
    · simp [aP]
    · simp [bP, ht]
  · refine ⟨[Event.call Call.ProcessAltData, Event.call Call.displayStats] ++ eU ++ eD ++ eL ++
      eR ++ eS ++ eP, ?_, ?_⟩
    · simp [aP]
    · simp [bP, ht]

/-! ## Initialisation -/

theorem initAll_trace (env : Env W) (s : State W) :
    ∃ clock, (initAll env s).trace = s.trace ++
      [Event.enter Fn.initAll, Event.enter Fn.initClock,
       Event.call (Call.SysCtlClockSet (env.SYSCTL_SYSDIV_10 ||| env.SYSCTL_USE_PLL |||
         env.SYSCTL_OSC_MAIN ||| env.SYSCTL_XTAL_16MHZ)),
       Event.call Call.initialiseUSB_UART, Event.call Call.initialiseMainPWM,
       Event.call Call.initialiseTailPWM, Event.call Call.initADC,
       Event.call Call.initADCCircBuf, Event.enter Fn.initResetBut,
       Event.call (Call.SysCtlPeripheralEnable env.SYSCTL_PERIPH_GPIOA),
       Event.call (Call.GPIOPinTypeGPIOInput env.GPIO_PORTA_BASE env.GPIO_PIN_6),
       Event.call (Call.GPIOPadConfigSet env.GPIO_PORTA_BASE env.GPIO_PIN_6
         env.GPIO_STRENGTH_2MA env.GPIO_PIN_TYPE_STD_WPD),
       Event.call (Call.GPIODirModeSet env.GPIO_PORTA_BASE env.GPIO_PIN_6
         env.GPIO_DIR_MODE_IN),
       Event.call (Call.SysCtlPeripheralReset env.LEFT_BUT_PERIPH),
       Event.call (Call.SysCtlPeripheralReset env.UP_BUT_PERIPH),
       Event.call Call.initButtons, Event.call Call.initSwitch, Event.call Call.initDisplay,
       Event.call Call.initYawRef, Event.call Call.initYawGPIO,
       Event.enter Fn.initSysTick, Event.call (Call.SysCtlClockGet clock),
       Event.call (Call.SysTickPeriodSet (clock / 200)),
       Event.call (Call.SysTickIntRegister Fn.SysTickIntHandler),
       Event.call Call.SysTickIntEnable, Event.call Call.SysTickEnable,
       Event.call Call.IntMasterEnable] ∧
    (initAll env s).ticksCount = s.ticksCount := by
  exact ⟨_, by
    simp only [initAll, initClock, initResetBut, initSysTick, State.emit_trace,
      State.note_trace, List.append_assoc, List.singleton_append, List.cons_append,
      List.nil_append, SYS_TICK_RATE]
    rfl, by simp [initAll, initClock, initResetBut, initSysTick]⟩

/-! ## Steps of the interrupt-driven system -/

theorem buttonUp_ticksCount (env : Env W) (s : State W) :
    (buttonUp env s).ticksCount = s.ticksCount := by
  obtain ⟨_, _, h⟩ := buttonUp_spec env s
  exact h

theorem buttonDown_ticksCount (env : Env W) (s : State W) :
    (buttonDown env s).ticksCount = s.ticksCount := by
  obtain ⟨_, _, h⟩ := buttonDown_spec env s
  exact h

theorem buttonLeft_ticksCount (env : Env W) (s : State W) :
    (buttonLeft env s).ticksCount = s.ticksCount := by
  obtain ⟨_, _, h⟩ := buttonLeft_spec env s
  exact h

theorem buttonRight_ticksCount (env : Env W) (s : State W) :
    (buttonRight env s).ticksCount = s.ticksCount := by
  obtain ⟨_, _, h⟩ := buttonRight_spec env s
  exact h

theorem switched_ticksCount (env : Env W) (s : State W) :
    (switched env s).ticksCount = s.ticksCount := by
  obtain ⟨_, _, h⟩ := switched_spec env s
  exact h

theorem buttonReset_ticksCount (env : Env W) (s : State W) :
    (buttonReset env s).2.ticksCount = s.ticksCount := by
  obtain ⟨_, _, h, _⟩ := buttonReset_spec env s
  exact h

/-- A step only appends to the trace, and what it appends is no call of initAll. -/
theorem step_trace (env : Env W) (a : Action) (m : Machine W) :
    ∃ ev, (step env a m).st.trace = m.st.trace ++ ev ∧ Event.enter Fn.initAll ∉ ev := by
  cases a with
  | irq =>
    show ∃ ev, (irqStep env m).st.trace = m.st.trace ++ ev ∧ Event.enter Fn.initAll ∉ ev
    unfold irqStep
    split
    · exact ⟨[], by simp, by simp⟩
    · exact ⟨_, SysTickIntHandler_trace env m.st, by simp⟩
  | bg =>
    show ∃ ev, (bgStep env m).st.trace = m.st.trace ++ ev ∧ Event.enter Fn.initAll ∉ ev
    unfold bgStep
    split
    · dsimp only
      split_ifs
      · exact ⟨[_], rfl, by simp⟩
      · exact ⟨[_], rfl, by simp⟩
    · exact ⟨[_], rfl, by simp⟩
    · exact ⟨[_], rfl, by simp⟩
    · obtain ⟨r, h, -⟩ := buttonUp_spec env m.st
      exact ⟨_, h, by split_ifs <;> simp⟩
    · obtain ⟨r, h, -⟩ := buttonDown_spec env m.st
      exact ⟨_, h, by split_ifs <;> simp⟩
    · obtain ⟨r, h, -⟩ := buttonLeft_spec env m.st
      exact ⟨_, h, by split_ifs <;> simp⟩
    · obtain ⟨r, h, -⟩ := buttonRight_spec env m.st
      exact ⟨_, h, by split_ifs <;> simp⟩
    · obtain ⟨r, h, -⟩ := switched_spec env m.st
      exact ⟨_, h, by split_ifs <;> simp⟩
    · obtain ⟨r, h, -, -⟩ := buttonReset_spec env m.st
      split
      · rename_i s' heq
        rw [heq] at h
        exact ⟨_, h, by split_ifs <;> simp⟩
      · rename_i s' heq
        rw [heq] at h
        exact ⟨_, h, by split_ifs <;> simp⟩
    · exact ⟨[_], rfl, by simp⟩
    · exact ⟨[_], rfl, by simp⟩
    · exact ⟨[], by simp, by simp⟩

theorem run_trace (env : Env W) (sched : List Action) (m : Machine W) :
    ∃ ev, (run env sched m).st.trace = m.st.trace ++ ev ∧ Event.enter Fn.initAll ∉ ev := by
  induction sched generalizing m with
  | nil => exact ⟨[], by simp [run], by simp⟩
  | cons a rest ih =>
    obtain ⟨e1, h1, n1⟩ := step_trace env a m
    obtain ⟨e2, h2, n2⟩ := ih (step env a m)
    refine ⟨e1 ++ e2, ?_, ?_⟩
    · simp only [run]
      rw [h2, h1, List.append_assoc]
    · simp [n1, n2]

/-! ## Counting ticks across the handoff -/

/-- No schedule counts a tick twice: the values returned so far plus the value pending
never exceed the number of handler invocations, and the same holds with the value a
read-reset in progress has observed in place of the pending one. -/
theorem step_le (env : Env W) (a : Action) (m : Machine W)
    (h1 : m.returned + m.st.ticksCount ≤ m.fired)
    (h2 : m.pc.inReadReset = true → m.returned + m.observed ≤ m.fired) :
    (step env a m).returned + (step env a m).st.ticksCount ≤ (step env a m).fired ∧
      ((step env a m).pc.inReadReset = true →
        (step env a m).returned + (step env a m).observed ≤ (step env a m).fired) := by
  obtain ⟨st, pc, obs, ret, fired⟩ := m
  simp only at h1 h2
  cases a with
  | irq =>
    have hm : (st.ticksCount + 1) % UINT32_MOD ≤ st.ticksCount + 1 := Nat.mod_le _ _
    by_cases hr : pc = Pc.restarted
    · subst hr
      exact ⟨h1, h2⟩
    · have e : step env Action.irq ⟨st, pc, obs, ret, fired⟩ =
          ⟨SysTickIntHandler env st, pc, obs, ret, fired + 1⟩ := by
        cases pc <;> first | rfl | exact absurd rfl hr
      rw [e]
      simp only [SysTickIntHandler_ticksCount]
      exact ⟨by omega, fun h => by have := h2 h; omega⟩
  | bg =>
    cases pc
    case test =>
      simp only [step, bgStep]
      split_ifs with hc
      · exact ⟨h1, fun _ => h1⟩
      · exact ⟨h1, fun h => by simp [Pc.inReadReset] at h⟩
    case buttonReset =>
      have ht := buttonReset_ticksCount env st
      have h3 := h2 rfl
      simp only [step, bgStep]
      split
      · rename_i s' heq
        rw [heq] at ht
        simp only at ht
        exact ⟨by simp only [ht]; exact h1, fun h => by simp [Pc.inReadReset] at h⟩
      · rename_i s' heq
        rw [heq] at ht
        simp only at ht
        exact ⟨by simp only [ht]; exact h1, fun _ => h3⟩
    case clear =>
      have h3 := h2 rfl
      simp only [step, bgStep, clearTicks_ticksCount]
      exact ⟨by omega, fun h => by simp [Pc.inReadReset] at h⟩
    case restarted =>
      exact ⟨h1, h2⟩
    case console =>
      simp only [step, bgStep, State.emit_ticksCount]
      exact ⟨h1, fun h => by simp [Pc.inReadReset] at h⟩
    all_goals
      have h3 := h2 rfl
      simp only [step, bgStep, State.emit_ticksCount, buttonUp_ticksCount,
        buttonDown_ticksCount, buttonLeft_ticksCount, buttonRight_ticksCount,
        switched_ticksCount]
      exact ⟨h1, fun _ => h3⟩

theorem run_le (env : Env W) (sched : List Action) (m : Machine W)
    (h1 : m.returned + m.st.ticksCount ≤ m.fired)
    (h2 : m.pc.inReadReset = true → m.returned + m.observed ≤ m.fired) :
    (run env sched m).returned + (run env sched m).st.ticksCount ≤ (run env sched m).fired := by
  induction sched generalizing m with
  | nil => exact h1
  | cons a rest ih =>
    obtain ⟨k1, k2⟩ := step_le env a m h1 h2
    exact ih _ k1 k2

theorem irqStep_fired (env : Env W) (m : Machine W) : (irqStep env m).fired ≤ m.fired + 1 := by
  unfold irqStep
  split
  · omega
  · exact Nat.le_refl _

theorem bgStep_fired (env : Env W) (m : Machine W) : (bgStep env m).fired = m.fired := by
  unfold bgStep
  split <;> try rfl
  · dsimp only
    split_ifs <;> rfl
  · split <;> rfl

/-- An interrupt outside a read-reset, below the wrap of the counter, keeps the count
exact. -/
theorem irqStep_eq (env : Env W) (m : Machine W)
    (h1 : m.returned + m.st.ticksCount = m.fired)
    (hw : m.pc.inReadReset = false) (hb : m.fired + 1 < UINT32_MOD) :
    (irqStep env m).returned + (irqStep env m).st.ticksCount = (irqStep env m).fired ∧
      ((irqStep env m).pc.inReadReset = true →
        (irqStep env m).observed = (irqStep env m).st.ticksCount) := by
  obtain ⟨st, pc, obs, ret, fired⟩ := m
  simp only at h1 hw hb
  have hm : (st.ticksCount + 1) % UINT32_MOD = st.ticksCount + 1 :=
    Nat.mod_eq_of_lt (by omega)
  by_cases hr : pc = Pc.restarted
  · subst hr
    refine ⟨h1, fun h => ?_⟩
    simp [irqStep, Pc.inReadReset] at h
  · have e : irqStep env ⟨st, pc, obs, ret, fired⟩ =
        ⟨SysTickIntHandler env st, pc, obs, ret, fired + 1⟩ := by
      cases pc <;> first | rfl | exact absurd rfl hr
    rw [e]
    simp only [SysTickIntHandler_ticksCount, hm]
    exact ⟨by omega, fun h => by rw [hw] at h; exact absurd h (by decide)⟩

/-- A statement of the background loop keeps the count exact. -/
theorem bgStep_eq (env : Env W) (m : Machine W)
    (h1 : m.returned + m.st.ticksCount = m.fired)
    (h2 : m.pc.inReadReset = true → m.observed = m.st.ticksCount) :
    (bgStep env m).returned + (bgStep env m).st.ticksCount = (bgStep env m).fired ∧
      ((bgStep env m).pc.inReadReset = true →
        (bgStep env m).observed = (bgStep env m).st.ticksCount) := by
  obtain ⟨st, pc, obs, ret, fired⟩ := m
  simp only at h1 h2
  cases pc
  case test =>
    simp only [bgStep]
    split_ifs with hc
    · exact ⟨h1, fun _ => rfl⟩
    · exact ⟨h1, fun h => by simp [Pc.inReadReset] at h⟩
  case buttonReset =>
    have ht := buttonReset_ticksCount env st
    have h3 := h2 rfl
    simp only [bgStep]
    split
    · rename_i s' heq
      rw [heq] at ht
      simp only at ht
      exact ⟨by simp only [ht]; exact h1, fun h => by simp [Pc.inReadReset] at h⟩
    · rename_i s' heq
      rw [heq] at ht
      simp only at ht
      exact ⟨by simp only [ht]; exact h1, fun _ => by simp only [ht]; exact h3⟩
  case clear =>
    have h3 := h2 rfl
    simp only [bgStep, clearTicks_ticksCount]
    exact ⟨by omega, fun h => by simp [Pc.inReadReset] at h⟩
  case restarted =>
    exact ⟨h1, h2⟩
  case console =>
    simp only [bgStep, State.emit_ticksCount]
    exact ⟨h1, fun h => by simp [Pc.inReadReset] at h⟩
  all_goals
    have h3 := h2 rfl
    simp only [bgStep, State.emit_ticksCount, buttonUp_ticksCount,
      buttonDown_ticksCount, buttonLeft_ticksCount, buttonRight_ticksCount,
      switched_ticksCount]
    exact ⟨h1, fun _ => h3⟩

theorem run_eq (env : Env W) (sched : List Action) (m : Machine W)
    (h1 : m.returned + m.st.ticksCount = m.fired)
    (h2 : m.pc.inReadReset = true → m.observed = m.st.ticksCount)
    (hu : readResetUndisturbed env sched m = true)
    (hb : m.fired + irqCount sched < UINT32_MOD) :
    (run env sched m).returned + (run env sched m).st.ticksCount = (run env sched m).fired := by
  induction sched generalizing m with
  | nil => exact h1
  | cons a rest ih =>
    cases a with
    | irq =>
      simp only [readResetUndisturbed, Bool.and_eq_true, Bool.not_eq_true'] at hu
      have hc : irqCount (Action.irq :: rest) = irqCount rest + 1 := by
        simp [irqCount]
      rw [hc] at hb
      obtain ⟨k1, k2⟩ := irqStep_eq env m h1 hu.1 (by omega)
      have hf := irqStep_fired env m
      exact ih (irqStep env m) k1 k2 hu.2 (by omega)
    | bg =>
      simp only [readResetUndisturbed] at hu
      have hc : irqCount (Action.bg :: rest) = irqCount rest := by
        simp [irqCount]
      rw [hc] at hb
      obtain ⟨k1, k2⟩ := bgStep_eq env m h1 h2
      have hf := bgStep_fired env m
      exact ih (bgStep env m) k1 k2 hu (by omega)

theorem boot_ticksCount (env : Env W) (w : W) : (Machine.boot env w).st.ticksCount = 0 := by
  obtain ⟨_, _, h⟩ := initAll_trace env (State.start w)
  exact h

theorem run_append (env : Env W) (s1 s2 : List Action) (m : Machine W) :
    run env (s1 ++ s2) m = run env s2 (run env s1 m) := by
  induction s1 generalizing m with
  | nil => rfl
  | cons a rest ih => exact ih (step env a m)

/-- Eleven background steps from the loop head, with ticksCount nonzero and no interrupt,
are one iteration of the loop body. -/
theorem run_bg_eq_loopBody (env : Env W) (m : Machine W) (hp : m.pc = Pc.test)
    (h : 0 < m.st.ticksCount) :
    (run env (List.replicate 11 Action.bg) m).st = (loopBody env m.st).2 := by
  obtain ⟨st, pc, obs, ret, fired⟩ := m
  simp only at hp h
  subst hp
  have e : List.replicate 11 Action.bg =
      List.replicate 8 Action.bg ++ List.replicate 3 Action.bg := rfl
  have h8 : run env (List.replicate 8 Action.bg) ⟨st, Pc.test, obs, ret, fired⟩ =
      ⟨switched env (buttonRight env (buttonLeft env (buttonDown env (buttonUp env
        (((st.note (Event.tickTest st.ticksCount)).emit env Call.ProcessAltData).emit env
          Call.displayStats))))), Pc.buttonReset, st.ticksCount, ret, fired⟩ := by
    simp [List.replicate, run, step, bgStep, h]
  rw [e, run_append, h8]
  simp only [List.replicate, run, step, loopBody, gt_iff_lt, h, if_true]
  cases hbr : buttonReset env (switched env (buttonRight env (buttonLeft env (buttonDown env
      (buttonUp env (((st.note (Event.tickTest st.ticksCount)).emit env
        Call.ProcessAltData).emit env Call.displayStats)))))) with
  | mk c s' =>
    cases c <;> simp [bgStep, hbr]

theorem step_restarted (env : Env W) (a : Action) (m : Machine W) (h : m.pc = Pc.restarted) :
    step env a m = m := by
  obtain ⟨st, pc, obs, ret, fired⟩ := m
  simp only at h
  subst h
  cases a <;> rfl

theorem run_restarted (env : Env W) (sched : List Action) (m : Machine W)
    (h : m.pc = Pc.restarted) : run env sched m = m := by
  induction sched with
  | nil => rfl
  | cons a rest ih =>
    simp only [run]
    rw [step_restarted env a m h]
    exact ih

/-- Until a restart every interrupt of the schedule is counted in fired. -/
theorem run_fired (env : Env W) (sched : List Action) (m : Machine W)
    (h : (run env sched m).pc ≠ Pc.restarted) :
    (run env sched m).fired = m.fired + irqCount sched := by
  induction sched generalizing m with
  | nil => simp [run, irqCount]
  | cons a rest ih =>
    have hm : m.pc ≠ Pc.restarted := by
      intro hr
      rw [run_restarted env _ m hr] at h
      exact h hr
    simp only [run] at h ⊢
    rw [ih _ h]
    cases a with
    | irq =>
      have e : (step env Action.irq m).fired = m.fired + 1 := by
        obtain ⟨st, pc, obs, ret, fired⟩ := m
        simp only at hm
        cases pc <;> first | rfl | exact absurd rfl hm
      rw [e]
      simp [irqCount]
      omega
    | bg =>
      have e : (step env Action.bg m).fired = m.fired := bgStep_fired env m
      rw [e]
      simp [irqCount]

/-! ## The input handlers in terms of what the collaborators return -/

theorem buttonUp_trace (env : Env W) (s : State W) :
    (buttonUp env s).trace = s.trace ++
      ([Event.enter Fn.buttonUp,
        Event.call (Call.checkButton butNames.UP (env.checkButton butNames.UP s.world))] ++
        if env.checkButton butNames.UP s.world = env.PUSHED then [Event.call Call.incrAlt]
        else []) := by
  unfold buttonUp
  by_cases h : env.checkButton butNames.UP s.world = env.PUSHED <;> simp [h]

theorem buttonUp_world (env : Env W) (s : State W) :
    (buttonUp env s).world =
      if env.checkButton butNames.UP s.world = env.PUSHED then
        env.effect Call.incrAlt (env.effect
          (Call.checkButton butNames.UP (env.checkButton butNames.UP s.world)) s.world)
      else env.effect
          (Call.checkButton butNames.UP (env.checkButton butNames.UP s.world)) s.world := by
  unfold buttonUp
  by_cases h : env.checkButton butNames.UP s.world = env.PUSHED <;> simp [h]

theorem buttonDown_trace (env : Env W) (s : State W) :
    (buttonDown env s).trace = s.trace ++
      ([Event.enter Fn.buttonDown,
        Event.call (Call.checkButton butNames.DOWN (env.checkButton butNames.DOWN s.world))] ++
        if env.checkButton butNames.DOWN s.world = env.PUSHED then [Event.call Call.decrAlt]
        else []) := by
  unfold buttonDown
  by_cases h : env.checkButton butNames.DOWN s.world = env.PUSHED <;> simp [h]

theorem buttonDown_world (env : Env W) (s : State W) :
    (buttonDown env s).world =
      if env.checkButton butNames.DOWN s.world = env.PUSHED then
        env.effect Call.decrAlt (env.effect
          (Call.checkButton butNames.DOWN (env.checkButton butNames.DOWN s.world)) s.world)
      else env.effect
          (Call.checkButton butNames.DOWN (env.checkButton butNames.DOWN s.world)) s.world := by
  unfold buttonDown
  by_cases h : env.checkButton butNames.DOWN s.world = env.PUSHED <;> simp [h]

theorem buttonLeft_trace (env : Env W) (s : State W) :
    (buttonLeft env s).trace = s.trace ++
      ([Event.enter Fn.buttonLeft,
        Event.call (Call.checkButton butNames.LEFT (env.checkButton butNames.LEFT s.world))] ++
        if env.checkButton butNames.LEFT s.world = env.PUSHED then [Event.call Call.decrYaw]
        else []) := by
  unfold buttonLeft
  by_cases h : env.checkButton butNames.LEFT s.world = env.PUSHED <;> simp [h]

theorem buttonLeft_world (env : Env W) (s : State W) :
    (buttonLeft env s).world =
      if env.checkButton butNames.LEFT s.world = env.PUSHED then
        env.effect Call.decrYaw (env.effect
          (Call.checkButton butNames.LEFT (env.checkButton butNames.LEFT s.world)) s.world)
      else env.effect
          (Call.checkButton butNames.LEFT (env.checkButton butNames.LEFT s.world)) s.world := by
  unfold buttonLeft
  by_cases h : env.checkButton butNames.LEFT s.world = env.PUSHED <;> simp [h]

theorem buttonRight_trace (env : Env W) (s : State W) :
    (buttonRight env s).trace = s.trace ++
      ([Event.enter Fn.buttonRight,
        Event.call (Call.checkButton butNames.RIGHT (env.checkButton butNames.RIGHT s.world))] ++
        if env.checkButton butNames.RIGHT s.world = env.PUSHED then [Event.call Call.incrYaw]
        else []) := by
  unfold buttonRight
  by_cases h : env.checkButton butNames.RIGHT s.world = env.PUSHED <;> simp [h]

theorem buttonRight_world (env : Env W) (s : State W) :
    (buttonRight env s).world =
      if env.checkButton butNames.RIGHT s.world = env.PUSHED then
        env.effect Call.incrYaw (env.effect
          (Call.checkButton butNames.RIGHT (env.checkButton butNames.RIGHT s.world)) s.world)
      else env.effect
          (Call.checkButton butNames.RIGHT (env.checkButton butNames.RIGHT s.world)) s.world := by
  unfold buttonRight
  by_cases h : env.checkButton butNames.RIGHT s.world = env.PUSHED <;> simp [h]

theorem switched_trace (env : Env W) (s : State W) :
    (switched env s).trace = s.trace ++
      ([Event.enter Fn.switched, Event.call (Call.checkSwitch (env.checkSwitch s.world))] ++
        if env.checkSwitch s.world ≠ 0 then [Event.call Call.findRefStart] else []) := by
  unfold switched
  by_cases h : env.checkSwitch s.world = 0 <;> simp [h]

theorem switched_world (env : Env W) (s : State W) :
    (switched env s).world =
      if env.checkSwitch s.world ≠ 0 then
        env.effect Call.findRefStart
          (env.effect (Call.checkSwitch (env.checkSwitch s.world)) s.world)
      else env.effect (Call.checkSwitch (env.checkSwitch s.world)) s.world := by
  unfold switched
  by_cases h : env.checkSwitch s.world = 0 <;> simp [h]

theorem buttonReset_trace (env : Env W) (s : State W) :
    (buttonReset env s).2.trace = s.trace ++
      ([Event.enter Fn.buttonReset,
        Event.call (Call.GPIOPinRead env.GPIO_PORTA_BASE env.GPIO_PIN_6
          (env.GPIOPinRead env.GPIO_PORTA_BASE env.GPIO_PIN_6 s.world))] ++
        if env.GPIOPinRead env.GPIO_PORTA_BASE env.GPIO_PIN_6 s.world = 0 then
          [Event.call Call.SysCtlReset]
        else []) := by
  unfold buttonReset
  by_cases h : env.GPIOPinRead env.GPIO_PORTA_BASE env.GPIO_PIN_6 s.world = 0 <;> simp [h]

theorem buttonReset_ctl (env : Env W) (s : State W) :
    (buttonReset env s).1 =
      if env.GPIOPinRead env.GPIO_PORTA_BASE env.GPIO_PIN_6 s.world = 0 then Ctl.restart
      else Ctl.next := by
  unfold buttonReset
  by_cases h : env.GPIOPinRead env.GPIO_PORTA_BASE env.GPIO_PIN_6 s.world = 0 <;> simp [h]

/-- The exact trace of an iteration that finds ticksCount nonzero: every logged result is
the value the environment returns in the world the poll is made in, and each world is the
one the preceding calls have produced. -/
theorem loopBody_exact (env : Env W) (s : State W) (h : 0 < s.ticksCount) :
    let w0 := env.effect Call.displayStats (env.effect Call.ProcessAltData s.world)
    let rU := env.checkButton butNames.UP w0
    let wU := if rU = env.PUSHED then
        env.effect Call.incrAlt (env.effect (Call.checkButton butNames.UP rU) w0)
      else env.effect (Call.checkButton butNames.UP rU) w0
    let rD := env.checkButton butNames.DOWN wU
    let wD := if rD = env.PUSHED then
        env.effect Call.decrAlt (env.effect (Call.checkButton butNames.DOWN rD) wU)
      else env.effect (Call.checkButton butNames.DOWN rD) wU
    let rL := env.checkButton butNames.LEFT wD
    let wL := if rL = env.PUSHED then
        env.effect Call.decrYaw (env.effect (Call.checkButton butNames.LEFT rL) wD)
      else env.effect (Call.checkButton butNames.LEFT rL) wD
    let rR := env.checkButton butNames.RIGHT wL
    let wR := if rR = env.PUSHED then
        env.effect Call.incrYaw (env.effect (Call.checkButton butNames.RIGHT rR) wL)
      else env.effect (Call.checkButton butNames.RIGHT rR) wL
    let rS := env.checkSwitch wR
    let wS := if rS ≠ 0 then
        env.effect Call.findRefStart (env.effect (Call.checkSwitch rS) wR)
      else env.effect (Call.checkSwitch rS) wR
    let rP := env.GPIOPinRead env.GPIO_PORTA_BASE env.GPIO_PIN_6 wS
    (loopBody env s).2.trace = s.trace ++
        ([Event.tickTest s.ticksCount, Event.call Call.ProcessAltData,
          Event.call Call.displayStats] ++
         ([Event.enter Fn.buttonUp, Event.call (Call.checkButton butNames.UP rU)] ++
            if rU = env.PUSHED then [Event.call Call.incrAlt] else []) ++
         ([Event.enter Fn.buttonDown, Event.call (Call.checkButton butNames.DOWN rD)] ++
            if rD = env.PUSHED then [Event.call Call.decrAlt] else []) ++
         ([Event.enter Fn.buttonLeft, Event.call (Call.checkButton butNames.LEFT rL)] ++
            if rL = env.PUSHED then [Event.call Call.decrYaw] else []) ++
         ([Event.enter Fn.buttonRight, Event.call (Call.checkButton butNames.RIGHT rR)] ++
            if rR = env.PUSHED then [Event.call Call.incrYaw] else []) ++
         ([Event.enter Fn.switched, Event.call (Call.checkSwitch rS)] ++
            if rS ≠ 0 then [Event.call Call.findRefStart] else []) ++
         [Event.enter Fn.buttonReset,
          Event.call (Call.GPIOPinRead env.GPIO_PORTA_BASE env.GPIO_PIN_6 rP)] ++
         (if rP = 0 then [Event.call Call.SysCtlReset]
          else [Event.tickClear, Event.call Call.consoleMsgSpaced])) ∧
      (loopBody env s).1 = (if rP = 0 then Ctl.restart else Ctl.next) ∧
      (loopBody env s).2.ticksCount = (if rP = 0 then s.ticksCount else 0) := by
  intro w0 rU wU rD wD rL wL rR wR rS wS rP
  have eU : (buttonUp env (((s.note (Event.tickTest s.ticksCount)).emit env
      Call.ProcessAltData).emit env Call.displayStats)).world = wU := buttonUp_world env _
  have eD : (buttonDown env (buttonUp env (((s.note (Event.tickTest s.ticksCount)).emit env
      Call.ProcessAltData).emit env Call.displayStats))).world = wD := by
    rw [buttonDown_world, eU]
  have eL : (buttonLeft env (buttonDown env (buttonUp env
      (((s.note (Event.tickTest s.ticksCount)).emit env
      Call.ProcessAltData).emit env Call.displayStats)))).world = wL := by
    rw [buttonLeft_world, eD]
  have eR : (buttonRight env (buttonLeft env (buttonDown env (buttonUp env
      (((s.note (Event.tickTest s.ticksCount)).emit env
      Call.ProcessAltData).emit env Call.displayStats))))).world = wR := by
    rw [buttonRight_world, eL]
  have eS : (switched env (buttonRight env (buttonLeft env (buttonDown env (buttonUp env
      (((s.note (Event.tickTest s.ticksCount)).emit env
      Call.ProcessAltData).emit env Call.displayStats)))))).world = wS := by
    rw [switched_world, eR]
  have hU := buttonUp_trace env (((s.note (Event.tickTest s.ticksCount)).emit env
      Call.ProcessAltData).emit env Call.displayStats)
  have hD := buttonDown_trace env (buttonUp env (((s.note (Event.tickTest s.ticksCount)).emit
      env Call.ProcessAltData).emit env Call.displayStats))
  have hL := buttonLeft_trace env (buttonDown env (buttonUp env
      (((s.note (Event.tickTest s.ticksCount)).emit env
      Call.ProcessAltData).emit env Call.displayStats)))
  have hR := buttonRight_trace env (buttonLeft env (buttonDown env (buttonUp env
      (((s.note (Event.tickTest s.ticksCount)).emit env
      Call.ProcessAltData).emit env Call.displayStats))))
  have hS := switched_trace env (buttonRight env (buttonLeft env (buttonDown env (buttonUp env
      (((s.note (Event.tickTest s.ticksCount)).emit env
      Call.ProcessAltData).emit env Call.displayStats)))))
  have hP := buttonReset_trace env (switched env (buttonRight env (buttonLeft env
      (buttonDown env (buttonUp env (((s.note (Event.tickTest s.ticksCount)).emit env
      Call.ProcessAltData).emit env Call.displayStats))))))
  have hP2 := buttonReset_ticksCount env (switched env (buttonRight env (buttonLeft env
      (buttonDown env (buttonUp env (((s.note (Event.tickTest s.ticksCount)).emit env
      Call.ProcessAltData).emit env Call.displayStats))))))
  have hP3 := buttonReset_ctl env (switched env (buttonRight env (buttonLeft env
      (buttonDown env (buttonUp env (((s.note (Event.tickTest s.ticksCount)).emit env
      Call.ProcessAltData).emit env Call.displayStats))))))
  rw [eS] at hP hP3
  rw [eR] at hS
  rw [eL] at hR
  rw [eD] at hL
  rw [eU] at hD
  change (buttonUp env _).trace = _ ++ ([Event.enter Fn.buttonUp,
    Event.call (Call.checkButton butNames.UP rU)] ++
    if rU = env.PUSHED then [Event.call Call.incrAlt] else []) at hU
  change _ = _ ++ ([Event.enter Fn.buttonReset,
    Event.call (Call.GPIOPinRead env.GPIO_PORTA_BASE env.GPIO_PIN_6 rP)] ++
    if rP = 0 then [Event.call Call.SysCtlReset] else []) at hP
  change _ = (if rP = 0 then Ctl.restart else Ctl.next) at hP3
  change _ = _ ++ ([Event.enter Fn.switched, Event.call (Call.checkSwitch rS)] ++
    if rS ≠ 0 then [Event.call Call.findRefStart] else []) at hS
  change _ = _ ++ ([Event.enter Fn.buttonRight,
    Event.call (Call.checkButton butNames.RIGHT rR)] ++
    if rR = env.PUSHED then [Event.call Call.incrYaw] else []) at hR
  change _ = _ ++ ([Event.enter Fn.buttonLeft,
    Event.call (Call.checkButton butNames.LEFT rL)] ++
    if rL = env.PUSHED then [Event.call Call.decrYaw] else []) at hL
  change _ = _ ++ ([Event.enter Fn.buttonDown,
    Event.call (Call.checkButton butNames.DOWN rD)] ++
    if rD = env.PUSHED then [Event.call Call.decrAlt] else []) at hD
  rw [hS, hR, hL, hD, hU] at hP
  rw [switched_ticksCount, buttonRight_ticksCount, buttonLeft_ticksCount,
    buttonDown_ticksCount, buttonUp_ticksCount] at hP2
  simp only [State.emit_trace, State.note_trace, State.emit_ticksCount,
    State.note_ticksCount] at hP hP2
  unfold loopBody
  simp only [gt_iff_lt, h, if_true]
  split
  · rename_i s' heq
    have e1 : (Ctl.restart, s').1 = (if rP = 0 then Ctl.restart else Ctl.next) := by
      rw [← heq]; exact hP3
    rw [heq] at hP hP2
    by_cases hr : rP = 0
    · simp only [hr, if_true] at hP hP2 ⊢
      refine ⟨?_, trivial, hP2⟩
      rw [hP]; simp
    · simp [hr] at e1
  · rename_i s' heq
    have e1 : (Ctl.next, s').1 = (if rP = 0 then Ctl.restart else Ctl.next) := by
      rw [← heq]; exact hP3
    rw [heq] at hP hP2
    by_cases hr : rP = 0
    · simp [hr] at e1
    · simp only [hr, if_false] at hP hP2 ⊢
      refine ⟨?_, trivial, ?_⟩
      · simp only [State.emit_trace, clearTicks_trace]
        rw [hP]; simp
      · simp

/-- The same, with the polled values and the worlds as variables bound by equations. -/
theorem loopBody_exact_vars (env : Env W) (s : State W) (h : 0 < s.ticksCount)
    (w0 : W) (rU : Nat) (wU : W) (rD : Nat) (wD : W) (rL : Nat) (wL : W) (rR : Nat) (wR : W)
    (rS : Nat) (wS : W) (rP : Nat)
    (e0 : w0 = env.effect Call.displayStats (env.effect Call.ProcessAltData s.world))
    (eU : rU = env.checkButton butNames.UP w0)
    (fU : wU = if rU = env.PUSHED then
        env.effect Call.incrAlt (env.effect (Call.checkButton butNames.UP rU) w0)
      else env.effect (Call.checkButton butNames.UP rU) w0)
    (eD : rD = env.checkButton butNames.DOWN wU)
    (fD : wD = if rD = env.PUSHED then
        env.effect Call.decrAlt (env.effect (Call.checkButton butNames.DOWN rD) wU)
      else env.effect (Call.checkButton butNames.DOWN rD) wU)
    (eL : rL = env.checkButton butNames.LEFT wD)
    (fL : wL = if rL = env.PUSHED then
        env.effect Call.decrYaw (env.effect (Call.checkButton butNames.LEFT rL) wD)
      else env.effect (Call.checkButton butNames.LEFT rL) wD)
    (eR : rR = env.checkButton butNames.RIGHT wL)
    (fR : wR = if rR = env.PUSHED then
        env.effect Call.incrYaw (env.effect (Call.checkButton butNames.RIGHT rR) wL)
      else env.effect (Call.checkButton butNames.RIGHT rR) wL)
    (eS : rS = env.checkSwitch wR)
    (fS : wS = if rS ≠ 0 then
        env.effect Call.findRefStart (env.effect (Call.checkSwitch rS) wR)
      else env.effect (Call.checkSwitch rS) wR)
    (eP : rP = env.GPIOPinRead env.GPIO_PORTA_BASE env.GPIO_PIN_6 wS) :
    (loopBody env s).2.trace = s.trace ++
        ([Event.tickTest s.ticksCount, Event.call Call.ProcessAltData,
          Event.call Call.displayStats] ++
         ([Event.enter Fn.buttonUp, Event.call (Call.checkButton butNames.UP rU)] ++
            if rU = env.PUSHED then [Event.call Call.incrAlt] else []) ++
         ([Event.enter Fn.buttonDown, Event.call (Call.checkButton butNames.DOWN rD)] ++
            if rD = env.PUSHED then [Event.call Call.decrAlt] else []) ++
         ([Event.enter Fn.buttonLeft, Event.call (Call.checkButton butNames.LEFT rL)] ++
            if rL = env.PUSHED then [Event.call Call.decrYaw] else []) ++
         ([Event.enter Fn.buttonRight, Event.call (Call.checkButton butNames.RIGHT rR)] ++
            if rR = env.PUSHED then [Event.call Call.incrYaw] else []) ++
         ([Event.enter Fn.switched, Event.call (Call.checkSwitch rS)] ++
            if rS ≠ 0 then [Event.call Call.findRefStart] else []) ++
         [Event.enter Fn.buttonReset,
          Event.call (Call.GPIOPinRead env.GPIO_PORTA_BASE env.GPIO_PIN_6 rP)] ++
         (if rP = 0 then [Event.call Call.SysCtlReset]
          else [Event.tickClear, Event.call Call.consoleMsgSpaced])) ∧
      (loopBody env s).1 = (if rP = 0 then Ctl.restart else Ctl.next) ∧
      (loopBody env s).2.ticksCount = (if rP = 0 then s.ticksCount else 0) := by
  subst e0 eU fU eD fD eL fL eR fR eS fS eP
  exact loopBody_exact env s h

/-! ## What main does around initAll -/

/-- After initAll, main goes on from its trace: nothing later is a call of initAll, and
the first thing that happens is the test of ticksCount, which reads 0, unless the
interrupt fires first and the handler calls updateButtons. -/
theorem main_trace (env : Env W) (w : W) (sched : List Action) :
    ∃ rest, (main env w sched).st.trace = (initAll env (State.start w)).trace ++ rest ∧
      rest.count (Event.enter Fn.initAll) = 0 ∧
      (rest.head? = none ∨ rest.head? = some (Event.tickTest 0) ∨
        rest.head? = some (Event.call Call.updateButtons)) := by
  have hb : (Machine.boot env w).st.trace = (initAll env (State.start w)).trace := rfl
  cases sched with
  | nil => exact ⟨[], by simp [main, run, hb], by simp, Or.inl rfl⟩
  | cons a tl =>
    obtain ⟨ev, hR, hn⟩ := run_trace env tl (step env a (Machine.boot env w))
    cases a with
    | irq =>
      have h1 : (step env Action.irq (Machine.boot env w)).st.trace =
          (Machine.boot env w).st.trace ++
            [Event.call Call.updateButtons, Event.call Call.updateSwitch,
             Event.call Call.refPulse, Event.call Call.piMainUpdate,
             Event.call Call.piTailUpdate,
             Event.call (Call.ADCProcessorTrigger env.ADC0_BASE 3),
             Event.tickIncr (((Machine.boot env w).st.ticksCount + 1) % UINT32_MOD)] :=
        SysTickIntHandler_trace env (Machine.boot env w).st
      refine ⟨[Event.call Call.updateButtons, Event.call Call.updateSwitch,
             Event.call Call.refPulse, Event.call Call.piMainUpdate,
             Event.call Call.piTailUpdate,
             Event.call (Call.ADCProcessorTrigger env.ADC0_BASE 3),
             Event.tickIncr (((Machine.boot env w).st.ticksCount + 1) % UINT32_MOD)] ++ ev,
        ?_, ?_, ?_⟩
      · show (run env tl (step env Action.irq (Machine.boot env w))).st.trace = _
        rw [hR, h1, hb, List.append_assoc]
      · simp [List.count_eq_zero, hn]
      · right; right; rfl
    | bg =>
      have h1 : (step env Action.bg (Machine.boot env w)).st.trace =
          (Machine.boot env w).st.trace ++ [Event.tickTest 0] := by
        have h0 := boot_ticksCount env w
        show (bgStep env (Machine.boot env w)).st.trace = _
        simp only [bgStep, Machine.boot] at h0 ⊢
        simp [h0]
      refine ⟨[Event.tickTest 0] ++ ev, ?_, ?_, ?_⟩
      · show (run env tl (step env Action.bg (Machine.boot env w))).st.trace = _
        rw [hR, h1, hb, List.append_assoc]
      · simp [List.count_eq_zero, hn]
      · right; left; rfl

/-! ## The tick handler: claims C2, C3 and C6 -/

/-- C2: every invocation of SysTickIntHandler, whatever ticksCount holds before it and
however the collaborators behave, leaves ticksCount at the old value plus one modulo 2^32,
and the invocation writes ticksCount exactly once: all it does besides that one increment
is call collaborators. -/
theorem SysTickIntHandler_increments_once (env : Env W) (s : State W) :
    (SysTickIntHandler env s).ticksCount = (s.ticksCount + 1) % 2 ^ 32 ∧
      ∃ added, (SysTickIntHandler env s).trace = s.trace ++ added ∧
        added.countP Event.writesTicks = 1 ∧
        added.count (Event.tickIncr ((s.ticksCount + 1) % 2 ^ 32)) = 1 ∧
        ∀ e ∈ added, e.writesTicks = false → e.isCall = true := by
  refine ⟨rfl, _, SysTickIntHandler_trace env s, ?_, ?_, ?_⟩
  · simp [Event.writesTicks]
  · simp [UINT32_MOD]
  · intro e he
    simp only [List.mem_cons, List.mem_singleton, List.not_mem_nil, or_false] at he
    rcases he with h | h | h | h | h | h | h <;> subst h <;> simp [Event.writesTicks, Event.isCall]

/-- C3: one invocation of SysTickIntHandler emits exactly updateButtons, updateSwitch,
refPulse, piMainUpdate, piTailUpdate and ADCProcessorTrigger(ADC0_BASE, 3), in this order
and each once, and the increment of ticksCount comes after all of them; the world it
leaves is the one these six calls produce when applied in this order. -/
theorem SysTickIntHandler_order (env : Env W) (s : State W) :
    (SysTickIntHandler env s).trace = s.trace ++
      [Event.call Call.updateButtons, Event.call Call.updateSwitch, Event.call Call.refPulse,
       Event.call Call.piMainUpdate, Event.call Call.piTailUpdate,
       Event.call (Call.ADCProcessorTrigger env.ADC0_BASE 3),
       Event.tickIncr ((s.ticksCount + 1) % 2 ^ 32)] ∧
    (SysTickIntHandler env s).world =
      env.effect (Call.ADCProcessorTrigger env.ADC0_BASE 3)
        (env.effect Call.piTailUpdate (env.effect Call.piMainUpdate
          (env.effect Call.refPulse (env.effect Call.updateSwitch
            (env.effect Call.updateButtons s.world))))) := by
  constructor
  · rw [SysTickIntHandler_trace]
    rfl
  · rfl

/-- C6, as the claim states it, fails at the largest counter value: from 4294967295 one
invocation of the handler brings ticksCount to 0, which is not greater. -/
theorem ticksCount_wraps_at_max :
    (SysTickIntHandler (fixedEnv 0 0 64)
        { ticksCount := 4294967295, world := (), trace := [] }).ticksCount = 0 ∧
      4294967295 < 2 ^ 32 ∧
      ¬ (4294967295 < (SysTickIntHandler (fixedEnv 0 0 64)
        { ticksCount := 4294967295, world := (), trace := [] }).ticksCount) := by
  decide

/-- C6, amended: as long as the counter does not reach 2^32, that is for every value c and
every number k >= 1 of consecutive handler invocations with c + k < 2^32, one invocation
leaves a value strictly greater than c, and k invocations leave c + k, which is at least c
and nonzero; the input handlers of main.c leave ticksCount alone. -/
theorem ticksCount_increases_below_wrap (env : Env W) (s : State W) (k : Nat) (hk : 1 ≤ k)
    (hb : s.ticksCount + k < 2 ^ 32) :
    s.ticksCount < (SysTickIntHandler env s).ticksCount ∧
      ((SysTickIntHandler env)^[k] s).ticksCount = s.ticksCount + k ∧
      s.ticksCount ≤ ((SysTickIntHandler env)^[k] s).ticksCount ∧
      ((SysTickIntHandler env)^[k] s).ticksCount ≠ 0 ∧
      (buttonUp env s).ticksCount = s.ticksCount ∧
      (buttonDown env s).ticksCount = s.ticksCount ∧
      (buttonLeft env s).ticksCount = s.ticksCount ∧
      (buttonRight env s).ticksCount = s.ticksCount ∧
      (switched env s).ticksCount = s.ticksCount ∧
      (buttonReset env s).2.ticksCount = s.ticksCount := by
  have h1 : (SysTickIntHandler env s).ticksCount = s.ticksCount + 1 := by
    rw [SysTickIntHandler_ticksCount]
    exact Nat.mod_eq_of_lt (by simp only [UINT32_MOD]; omega)
  have hk2 := SysTickIntHandler_iterate_ticksCount env k s hb
  obtain ⟨_, _, hU⟩ := buttonUp_spec env s
  obtain ⟨_, _, hD⟩ := buttonDown_spec env s
  obtain ⟨_, _, hL⟩ := buttonLeft_spec env s
  obtain ⟨_, _, hR⟩ := buttonRight_spec env s
  obtain ⟨_, _, hS⟩ := switched_spec env s
  obtain ⟨_, _, hP, _⟩ := buttonReset_spec env s
  refine ⟨by omega, hk2, by omega, by omega, hU, hD, hL, hR, hS, hP⟩

/-- C6 witness: three invocations from 7. -/
theorem ticksCount_increases_below_wrap_witness :
    (1 ≤ 3 ∧ 7 + 3 < 2 ^ 32) ∧
      ((SysTickIntHandler (fixedEnv 0 0 64))^[3]
        { ticksCount := 7, world := (), trace := [] }).ticksCount = 7 + 3 :=
  ⟨by decide, (ticksCount_increases_below_wrap (fixedEnv 0 0 64)
    { ticksCount := 7, world := (), trace := [] } 3 (by decide) (by decide)).2.1⟩

/-! ## One iteration of the background loop: claims C4 and C5 -/

/-- C4, as the claim states it, fails when the hard-reset input is active: with PA6
reading 0 and one tick pending, the iteration ends in SysCtlReset, so ticksCount is not
cleared and consoleMsgSpaced is not called. -/
theorem loopBody_restart_skips_telemetry :
    (loopBody (fixedEnv 0 0 0) { ticksCount := 1, world := (), trace := [] }).1 = Ctl.restart ∧
      (loopBody (fixedEnv 0 0 0) { ticksCount := 1, world := (), trace := [] }).2.trace.count
        (Event.call Call.consoleMsgSpaced) = 0 ∧
      (loopBody (fixedEnv 0 0 0) { ticksCount := 1, world := (), trace := [] }).2.trace.count
        Event.tickClear = 0 ∧
      (loopBody (fixedEnv 0 0 0) { ticksCount := 1, world := (), trace := [] }).2.trace.count
        (Event.call Call.SysCtlReset) = 1 := by
  decide

/-- C4, amended: with no interrupt during the iteration, (a) if ticksCount = 0 the
iteration only tests ticksCount: no call, world and ticksCount unchanged; (b) for every
nonzero ticksCount, if the iteration is not cut short by a restart request (PA6 read
nonzero), it calls ProcessAltData, displayStats, buttonUp, buttonDown, buttonLeft,
buttonRight, switched, buttonReset and consoleMsgSpaced exactly once each, leaves
ticksCount = 0, the following iteration does no work, and the events after the test are
the same whatever nonzero value ticksCount had. -/
theorem loopBody_once_per_tick (env : Env W) (s : State W) :
    (s.ticksCount = 0 → loopBody env s = (Ctl.next, s.note (Event.tickTest 0))) ∧
    (0 < s.ticksCount → (loopBody env s).1 = Ctl.next →
      (∃ added, (loopBody env s).2.trace = s.trace ++ added ∧
        added.count (Event.call Call.ProcessAltData) = 1 ∧
        added.count (Event.call Call.displayStats) = 1 ∧
        added.count (Event.enter Fn.buttonUp) = 1 ∧
        added.count (Event.enter Fn.buttonDown) = 1 ∧
        added.count (Event.enter Fn.buttonLeft) = 1 ∧
        added.count (Event.enter Fn.buttonRight) = 1 ∧
        added.count (Event.enter Fn.switched) = 1 ∧
        added.count (Event.enter Fn.buttonReset) = 1 ∧
        added.count (Event.call Call.consoleMsgSpaced) = 1) ∧
      (loopBody env s).2.ticksCount = 0 ∧
      loopBody env (loopBody env s).2 =
        (Ctl.next, (loopBody env s).2.note (Event.tickTest 0)) ∧
      ∀ t : State W, t.world = s.world → t.trace = s.trace → 0 < t.ticksCount →
        ∃ ev, (loopBody env s).2.trace = s.trace ++ Event.tickTest s.ticksCount :: ev ∧
          (loopBody env t).2.trace = s.trace ++ Event.tickTest t.ticksCount :: ev) := by
  refine ⟨loopBody_idle env s, ?_⟩
  intro h hn
  obtain ⟨rU, rD, rL, rR, rS, rP, hT, hC, hK⟩ := loopBody_spec env s h
  have hr : rP ≠ 0 := by
    intro h0
    rw [hn, if_pos h0] at hC
    exact absurd hC (by decide)
  rw [if_neg hr] at hK
  refine ⟨⟨_, hT, ?_⟩, hK, loopBody_idle env _ hK, ?_⟩
  · simp only [List.count_append, List.count_cons, List.count_nil, beq_iff_eq,
      Event.call.injEq, Event.enter.injEq, reduceCtorEq, if_true, if_false,
      apply_ite (List.count _), hr]
    split_ifs <;> simp
  · intro t hw ht h2
    exact loopBody_congr env s t hw.symm ht.symm h h2

/-- C4 witness: an idle iteration and an iteration with three ticks pending and the reset
input inactive. -/
theorem loopBody_once_per_tick_witness :
    loopBody (fixedEnv 1 0 64) { ticksCount := 0, world := (), trace := [] } =
        (Ctl.next, State.note (Event.tickTest 0) { ticksCount := 0, world := (), trace := [] }) ∧
      (0 < 3 ∧ (loopBody (fixedEnv 1 0 64) { ticksCount := 3, world := (), trace := [] }).1
          = Ctl.next) ∧
      (loopBody (fixedEnv 1 0 64) { ticksCount := 3, world := (), trace := [] }).2.ticksCount
        = 0 :=
  ⟨(loopBody_once_per_tick (fixedEnv 1 0 64) { ticksCount := 0, world := (), trace := [] }).1 rfl,
   ⟨by decide, by decide⟩,
   ((loopBody_once_per_tick (fixedEnv 1 0 64) { ticksCount := 3, world := (), trace := [] }).2
      (by decide) (by decide)).2.1⟩

/-- C5, as the claim states it, fails: in an iteration with one tick pending and the
reset input inactive the store ticksCount = 0 is the last event but one, after
ProcessAltData, displayStats and all the input handlers. -/
theorem clear_comes_after_work :
    (loopBody (fixedEnv 0 0 64) { ticksCount := 1, world := (), trace := [] }).2.trace =
      [Event.tickTest 1, Event.call Call.ProcessAltData, Event.call Call.displayStats,
       Event.enter Fn.buttonUp, Event.call (Call.checkButton butNames.UP 0),
       Event.enter Fn.buttonDown, Event.call (Call.checkButton butNames.DOWN 0),
       Event.enter Fn.buttonLeft, Event.call (Call.checkButton butNames.LEFT 0),
       Event.enter Fn.buttonRight, Event.call (Call.checkButton butNames.RIGHT 0),
       Event.enter Fn.switched, Event.call (Call.checkSwitch 0),
       Event.enter Fn.buttonReset, Event.call (Call.GPIOPinRead 0x40004000 0x40 64),
       Event.tickClear, Event.call Call.consoleMsgSpaced] ∧
      List.indexOf (Event.call Call.ProcessAltData)
          (loopBody (fixedEnv 0 0 64) { ticksCount := 1, world := (), trace := [] }).2.trace <
        List.indexOf Event.tickClear
          (loopBody (fixedEnv 0 0 64) { ticksCount := 1, world := (), trace := [] }).2.trace ∧
      List.indexOf (Event.enter Fn.buttonUp)
          (loopBody (fixedEnv 0 0 64) { ticksCount := 1, world := (), trace := [] }).2.trace <
        List.indexOf Event.tickClear
          (loopBody (fixedEnv 0 0 64) { ticksCount := 1, world := (), trace := [] }).2.trace := by
  decide

/-- C5, amended: in an iteration that finds ticksCount nonzero the work comes first and
the store after it: ProcessAltData, displayStats, buttonUp, buttonDown, buttonLeft,
buttonRight, switched and buttonReset all come before the store ticksCount = 0, and only
consoleMsgSpaced comes after it; when buttonReset requests a restart the iteration ends
there, without the store and without consoleMsgSpaced. -/
theorem loopBody_work_then_clear (env : Env W) (s : State W) (h : 0 < s.ticksCount) :
    ∃ before,
      (((loopBody env s).1 = Ctl.next ∧ (loopBody env s).2.trace =
          s.trace ++ before ++ [Event.tickClear, Event.call Call.consoleMsgSpaced]) ∨
        ((loopBody env s).1 = Ctl.restart ∧ (loopBody env s).2.trace = s.trace ++ before)) ∧
      Event.tickClear ∉ before ∧
      Event.call Call.consoleMsgSpaced ∉ before ∧
      Event.call Call.ProcessAltData ∈ before ∧
      Event.call Call.displayStats ∈ before ∧
      Event.enter Fn.buttonUp ∈ before ∧
      Event.enter Fn.buttonDown ∈ before ∧
      Event.enter Fn.buttonLeft ∈ before ∧
      Event.enter Fn.buttonRight ∈ before ∧
      Event.enter Fn.switched ∈ before ∧
      Event.enter Fn.buttonReset ∈ before := by
  obtain ⟨rU, rD, rL, rR, rS, rP, hT, hC, hK⟩ := loopBody_spec env s h
  refine ⟨[Event.tickTest s.ticksCount, Event.call Call.ProcessAltData,
          Event.call Call.displayStats] ++
         ([Event.enter Fn.buttonUp, Event.call (Call.checkButton butNames.UP rU)] ++
            if rU = env.PUSHED then [Event.call Call.incrAlt] else []) ++
         ([Event.enter Fn.buttonDown, Event.call (Call.checkButton butNames.DOWN rD)] ++
            if rD = env.PUSHED then [Event.call Call.decrAlt] else []) ++
         ([Event.enter Fn.buttonLeft, Event.call (Call.checkButton butNames.LEFT rL)] ++
            if rL = env.PUSHED then [Event.call Call.decrYaw] else []) ++
         ([Event.enter Fn.buttonRight, Event.call (Call.checkButton butNames.RIGHT rR)] ++
            if rR = env.PUSHED then [Event.call Call.incrYaw] else []) ++
         ([Event.enter Fn.switched, Event.call (Call.checkSwitch rS)] ++
            if rS ≠ 0 then [Event.call Call.findRefStart] else []) ++
         [Event.enter Fn.buttonReset,
          Event.call (Call.GPIOPinRead env.GPIO_PORTA_BASE env.GPIO_PIN_6 rP)] ++
         (if rP = 0 then [Event.call Call.SysCtlReset] else []), ?_, ?_⟩
  · by_cases hr : rP = 0
    · right
      simp only [hr, if_true] at hT hC ⊢
      exact ⟨hC, hT⟩
    · left
      simp only [hr, if_false] at hT hC ⊢
      refine ⟨hC, ?_⟩
      rw [hT]
      simp only [List.append_assoc, List.append_nil]
  · simp only [List.mem_append, List.mem_cons, List.mem_singleton, List.not_mem_nil,
      Event.call.injEq, Event.enter.injEq, reduceCtorEq, or_false, false_or, or_true, true_or,
      not_false_eq_true, true_and, and_true]
    split_ifs <;> simp

/-- C5 witness: an iteration with two ticks pending. -/
theorem loopBody_work_then_clear_witness :
    0 < 2 ∧ ∃ before,
      (((loopBody (fixedEnv 1 1 64) { ticksCount := 2, world := (), trace := [] }).1 = Ctl.next ∧
        (loopBody (fixedEnv 1 1 64) { ticksCount := 2, world := (), trace := [] }).2.trace =
          [] ++ before ++ [Event.tickClear, Event.call Call.consoleMsgSpaced]) ∨
        ((loopBody (fixedEnv 1 1 64) { ticksCount := 2, world := (), trace := [] }).1
            = Ctl.restart ∧
          (loopBody (fixedEnv 1 1 64) { ticksCount := 2, world := (), trace := [] }).2.trace =
            [] ++ before)) ∧
      Event.tickClear ∉ before ∧
      Event.call Call.consoleMsgSpaced ∉ before ∧
      Event.call Call.ProcessAltData ∈ before ∧
      Event.call Call.displayStats ∈ before ∧
      Event.enter Fn.buttonUp ∈ before ∧
      Event.enter Fn.buttonDown ∈ before ∧
      Event.enter Fn.buttonLeft ∈ before ∧
      Event.enter Fn.buttonRight ∈ before ∧
      Event.enter Fn.switched ∈ before ∧
      Event.enter Fn.buttonReset ∈ before :=
  ⟨by decide, loopBody_work_then_clear (fixedEnv 1 1 64)
    { ticksCount := 2, world := (), trace := [] } (by decide)⟩

/-! ## User input in the background loop: claims C7, C8 and C9 -/

/-- C7: in every iteration that finds ticksCount nonzero each of the buttons UP, DOWN,
LEFT and RIGHT is polled with checkButton exactly once; with rU, rD, rL, rR the values
checkButton returns for them, each in the world the preceding calls of the iteration have
produced, incrAlt is called once if rU is PUSHED and not at all otherwise, and likewise
decrAlt for rD, decrYaw for rL and incrYaw for rR: each adjustment depends on its own
button only and is never called twice.  Each handler, run from any state, polls its own
button and calls its own adjustment exactly when the value returned is PUSHED. -/
theorem buttons_react_to_push_only (env : Env W) (s : State W) (h : 0 < s.ticksCount) :
    let w0 := env.effect Call.displayStats (env.effect Call.ProcessAltData s.world)
    let rU := env.checkButton butNames.UP w0
    let wU := if rU = env.PUSHED then
        env.effect Call.incrAlt (env.effect (Call.checkButton butNames.UP rU) w0)
      else env.effect (Call.checkButton butNames.UP rU) w0
    let rD := env.checkButton butNames.DOWN wU
    let wD := if rD = env.PUSHED then
        env.effect Call.decrAlt (env.effect (Call.checkButton butNames.DOWN rD) wU)
      else env.effect (Call.checkButton butNames.DOWN rD) wU
    let rL := env.checkButton butNames.LEFT wD
    let wL := if rL = env.PUSHED then
        env.effect Call.decrYaw (env.effect (Call.checkButton butNames.LEFT rL) wD)
      else env.effect (Call.checkButton butNames.LEFT rL) wD
    let rR := env.checkButton butNames.RIGHT wL
    (∃ added : List Event,
      (loopBody env s).2.trace = s.trace ++ added ∧
      added.countP (Event.isPoll butNames.UP) = 1 ∧
      added.countP (Event.isPoll butNames.DOWN) = 1 ∧
      added.countP (Event.isPoll butNames.LEFT) = 1 ∧
      added.countP (Event.isPoll butNames.RIGHT) = 1 ∧
      Event.call (Call.checkButton butNames.UP rU) ∈ added ∧
      Event.call (Call.checkButton butNames.DOWN rD) ∈ added ∧
      Event.call (Call.checkButton butNames.LEFT rL) ∈ added ∧
      Event.call (Call.checkButton butNames.RIGHT rR) ∈ added ∧
      added.count (Event.call Call.incrAlt) = (if rU = env.PUSHED then 1 else 0) ∧
      added.count (Event.call Call.decrAlt) = (if rD = env.PUSHED then 1 else 0) ∧
      added.count (Event.call Call.decrYaw) = (if rL = env.PUSHED then 1 else 0) ∧
      added.count (Event.call Call.incrYaw) = (if rR = env.PUSHED then 1 else 0)) ∧
    (∀ t : State W, (buttonUp env t).trace = t.trace ++
      ([Event.enter Fn.buttonUp,
        Event.call (Call.checkButton butNames.UP (env.checkButton butNames.UP t.world))] ++
        if env.checkButton butNames.UP t.world = env.PUSHED then [Event.call Call.incrAlt]
        else [])) ∧
    (∀ t : State W, (buttonDown env t).trace = t.trace ++
      ([Event.enter Fn.buttonDown,
        Event.call (Call.checkButton butNames.DOWN (env.checkButton butNames.DOWN t.world))] ++
        if env.checkButton butNames.DOWN t.world = env.PUSHED then [Event.call Call.decrAlt]
        else [])) ∧
    (∀ t : State W, (buttonLeft env t).trace = t.trace ++
      ([Event.enter Fn.buttonLeft,
        Event.call (Call.checkButton butNames.LEFT (env.checkButton butNames.LEFT t.world))] ++
        if env.checkButton butNames.LEFT t.world = env.PUSHED then [Event.call Call.decrYaw]
        else [])) ∧
    (∀ t : State W, (buttonRight env t).trace = t.trace ++
      ([Event.enter Fn.buttonRight,
        Event.call (Call.checkButton butNames.RIGHT
          (env.checkButton butNames.RIGHT t.world))] ++
        if env.checkButton butNames.RIGHT t.world = env.PUSHED then [Event.call Call.incrYaw]
        else [])) := by
  intro w0 rU wU rD wD rL wL rR
  have key := loopBody_exact_vars env s h w0 rU wU rD wD rL wL rR _ _ _ _
    rfl rfl rfl rfl rfl rfl rfl rfl rfl rfl rfl rfl
  obtain ⟨hT, -, -⟩ := key
  clear_value rR wL rL wD rD wU rU w0
  refine ⟨⟨_, hT, ?_⟩, buttonUp_trace env, buttonDown_trace env, buttonLeft_trace env,
    buttonRight_trace env⟩
  simp only [List.count_append, List.count_cons, List.count_nil, List.countP_append,
    List.countP_cons, List.countP_nil, List.mem_append, List.mem_cons, List.mem_singleton,
    List.not_mem_nil, beq_iff_eq, Event.call.injEq, Event.enter.injEq, Call.checkButton.injEq,
    reduceCtorEq, if_true, if_false, apply_ite (List.count _), apply_ite (List.countP _),
    Event.isPoll, decide_True, decide_False, true_and, and_true, and_false, false_and,
    or_false, false_or, or_true, true_or, Bool.false_eq_true]
  split_ifs <;> simp

/-- C7 witness: an iteration in which UP and RIGHT are pushed, DOWN is released and LEFT
has not changed: incrAlt and incrYaw are called once, decrAlt and decrYaw are not. -/
theorem buttons_react_to_push_only_witness :
    0 < 1 ∧ ∃ added : List Event,
      (loopBody (logEnv upRightPushed (fun _ => 0) 64)
        { ticksCount := 1, world := [], trace := [] }).2.trace = [] ++ added ∧
      Event.call (Call.checkButton butNames.UP 1) ∈ added ∧
      Event.call (Call.checkButton butNames.DOWN 0) ∈ added ∧
      Event.call (Call.checkButton butNames.LEFT 2) ∈ added ∧
      Event.call (Call.checkButton butNames.RIGHT 1) ∈ added ∧
      added.count (Event.call Call.incrAlt) = 1 ∧
      added.count (Event.call Call.decrAlt) = 0 ∧
      added.count (Event.call Call.decrYaw) = 0 ∧
      added.count (Event.call Call.incrYaw) = 1 := by
  refine ⟨by decide, ?_⟩
  obtain ⟨⟨added, hT, -, -, -, -, mU, mD, mL, mR, cU, cD, cL, cR⟩, -⟩ :=
    buttons_react_to_push_only (logEnv upRightPushed (fun _ => 0) 64)
      { ticksCount := 1, world := [], trace := [] } (by decide)
  exact ⟨added, hT, mU, mD, mL, mR, cU, cD, cL, cR⟩

/-- C8: in every iteration that finds ticksCount nonzero the mode switch is polled with
checkSwitch exactly once and, with rS the value checkSwitch returns in the world the four
button handlers have left, findRefStart is called once if rS is nonzero and not at all if
it is zero; switched, run from any state, calls findRefStart exactly when checkSwitch
returns nonzero; the tick handler, the four button handlers, buttonReset and initAll
never call findRefStart. -/
theorem calibration_rearmed_by_switch_only (env : Env W) (s : State W)
    (h : 0 < s.ticksCount) :
    let w0 := env.effect Call.displayStats (env.effect Call.ProcessAltData s.world)
    let rU := env.checkButton butNames.UP w0
    let wU := if rU = env.PUSHED then
        env.effect Call.incrAlt (env.effect (Call.checkButton butNames.UP rU) w0)
      else env.effect (Call.checkButton butNames.UP rU) w0
    let rD := env.checkButton butNames.DOWN wU
    let wD := if rD = env.PUSHED then
        env.effect Call.decrAlt (env.effect (Call.checkButton butNames.DOWN rD) wU)
      else env.effect (Call.checkButton butNames.DOWN rD) wU
    let rL := env.checkButton butNames.LEFT wD
    let wL := if rL = env.PUSHED then
        env.effect Call.decrYaw (env.effect (Call.checkButton butNames.LEFT rL) wD)
      else env.effect (Call.checkButton butNames.LEFT rL) wD
    let rR := env.checkButton butNames.RIGHT wL
    let wR := if rR = env.PUSHED then
        env.effect Call.incrYaw (env.effect (Call.checkButton butNames.RIGHT rR) wL)
      else env.effect (Call.checkButton butNames.RIGHT rR) wL
    let rS := env.checkSwitch wR
    (∃ added : List Event,
      (loopBody env s).2.trace = s.trace ++ added ∧
      added.countP Event.isSwitchPoll = 1 ∧
      Event.call (Call.checkSwitch rS) ∈ added ∧
      added.count (Event.call Call.findRefStart) = (if rS ≠ 0 then 1 else 0)) ∧
    (∀ t : State W, (switched env t).trace = t.trace ++
      ([Event.enter Fn.switched, Event.call (Call.checkSwitch (env.checkSwitch t.world))] ++
        if env.checkSwitch t.world ≠ 0 then [Event.call Call.findRefStart] else [])) ∧
    (SysTickIntHandler env s).trace.count (Event.call Call.findRefStart) =
      s.trace.count (Event.call Call.findRefStart) ∧
    (buttonUp env s).trace.count (Event.call Call.findRefStart) =
      s.trace.count (Event.call Call.findRefStart) ∧
    (buttonDown env s).trace.count (Event.call Call.findRefStart) =
      s.trace.count (Event.call Call.findRefStart) ∧
    (buttonLeft env s).trace.count (Event.call Call.findRefStart) =
      s.trace.count (Event.call Call.findRefStart) ∧
    (buttonRight env s).trace.count (Event.call Call.findRefStart) =
      s.trace.count (Event.call Call.findRefStart) ∧
    (buttonReset env s).2.trace.count (Event.call Call.findRefStart) =
      s.trace.count (Event.call Call.findRefStart) ∧
    (initAll env s).trace.count (Event.call Call.findRefStart) =
      s.trace.count (Event.call Call.findRefStart) := by
  intro w0 rU wU rD wD rL wL rR wR rS
  have key := loopBody_exact_vars env s h w0 rU wU rD wD rL wL rR wR rS _ _
    rfl rfl rfl rfl rfl rfl rfl rfl rfl rfl rfl rfl
  obtain ⟨hT, -, -⟩ := key
  clear_value rS wR rR wL rL wD rD wU rU w0
  have hU := buttonUp_trace env s
  have hD := buttonDown_trace env s
  have hL := buttonLeft_trace env s
  have hR := buttonRight_trace env s
  have hP := buttonReset_trace env s
  refine ⟨⟨_, hT, ?_⟩, switched_trace env, ?_, ?_, ?_, ?_, ?_, ?_, ?_⟩
  · simp only [List.count_append, List.count_cons, List.count_nil, List.countP_append,
      List.countP_cons, List.countP_nil, List.mem_append, List.mem_cons, List.mem_singleton,
      List.not_mem_nil, beq_iff_eq, Event.call.injEq, Event.enter.injEq,
      Call.checkSwitch.injEq, reduceCtorEq, if_true, if_false, apply_ite (List.count _),
      apply_ite (List.countP _), Event.isSwitchPoll, true_and, and_true, and_false,
      false_and, or_false, false_or, or_true, true_or, Bool.false_eq_true]
    split_ifs <;> simp
  · rw [SysTickIntHandler_trace]; simp
  · rw [hU]
    simp only [List.count_append, List.count_cons, List.count_nil, beq_iff_eq,
      Event.call.injEq, reduceCtorEq, if_false, apply_ite (List.count _)]
    split_ifs <;> simp
  · rw [hD]
    simp only [List.count_append, List.count_cons, List.count_nil, beq_iff_eq,
      Event.call.injEq, reduceCtorEq, if_false, apply_ite (List.count _)]
    split_ifs <;> simp
  · rw [hL]
    simp only [List.count_append, List.count_cons, List.count_nil, beq_iff_eq,
      Event.call.injEq, reduceCtorEq, if_false, apply_ite (List.count _)]
    split_ifs <;> simp
  · rw [hR]
    simp only [List.count_append, List.count_cons, List.count_nil, beq_iff_eq,
      Event.call.injEq, reduceCtorEq, if_false, apply_ite (List.count _)]
    split_ifs <;> simp
  · rw [hP]
    simp only [List.count_append, List.count_cons, List.count_nil, beq_iff_eq,
      Event.call.injEq, reduceCtorEq, if_false, apply_ite (List.count _)]
    split_ifs <;> simp
  · simp only [initAll, initClock, initResetBut, initSysTick, State.emit_trace,
      State.note_trace, List.count_append, List.count_cons, List.count_nil, beq_iff_eq,
      Event.call.injEq, reduceCtorEq, if_false]
    simp

/-- C8 witness: two iterations with one tick pending.  In the first the switch poll
returns the number of calls made so far, which is 8 when the switch is polled, and
findRefStart is called once; in the second the poll returns 0 and findRefStart is not
called. -/
theorem calibration_rearmed_by_switch_only_witness :
    0 < 1 ∧
    (∃ added : List Event,
      (loopBody (logEnv upRightPushed List.length 64)
        { ticksCount := 1, world := [], trace := [] }).2.trace = [] ++ added ∧
      added.countP Event.isSwitchPoll = 1 ∧
      Event.call (Call.checkSwitch 8) ∈ added ∧
      added.count (Event.call Call.findRefStart) = 1) ∧
    (∃ added : List Event,
      (loopBody (logEnv upRightPushed (fun _ => 0) 64)
        { ticksCount := 1, world := [], trace := [] }).2.trace = [] ++ added ∧
      added.countP Event.isSwitchPoll = 1 ∧
      Event.call (Call.checkSwitch 0) ∈ added ∧
      added.count (Event.call Call.findRefStart) = 0) := by
  refine ⟨by decide, ?_, ?_⟩
  · obtain ⟨⟨added, hT, hP, hM, hC⟩, -⟩ :=
      calibration_rearmed_by_switch_only (logEnv upRightPushed List.length 64)
        { ticksCount := 1, world := [], trace := [] } (by decide)
    exact ⟨added, hT, hP, hM, hC⟩
  · obtain ⟨⟨added, hT, hP, hM, hC⟩, -⟩ :=
      calibration_rearmed_by_switch_only (logEnv upRightPushed (fun _ => 0) 64)
        { ticksCount := 1, world := [], trace := [] } (by decide)
    exact ⟨added, hT, hP, hM, hC⟩

/-- C9: in every iteration that finds ticksCount nonzero the reset input is polled once:
buttonReset is entered once and reads pin PA6 once, and with rP the value GPIOPinRead
returns for PA6 in the world the button handlers and switched have left, the iteration
continues with SysCtlReset if rP = 0 and with the store ticksCount = 0 followed by
consoleMsgSpaced otherwise (SysCtlReset is called if and only if rP = 0); the four button
handlers and switched come before the poll, the store comes after it.  buttonReset, run
from any state, requests the restart if and only if GPIOPinRead returns 0 for PA6. -/
theorem reset_polled_each_tick (env : Env W) (s : State W) (h : 0 < s.ticksCount) :
    let w0 := env.effect Call.displayStats (env.effect Call.ProcessAltData s.world)
    let rU := env.checkButton butNames.UP w0
    let wU := if rU = env.PUSHED then
        env.effect Call.incrAlt (env.effect (Call.checkButton butNames.UP rU) w0)
      else env.effect (Call.checkButton butNames.UP rU) w0
    let rD := env.checkButton butNames.DOWN wU
    let wD := if rD = env.PUSHED then
        env.effect Call.decrAlt (env.effect (Call.checkButton butNames.DOWN rD) wU)
      else env.effect (Call.checkButton butNames.DOWN rD) wU
    let rL := env.checkButton butNames.LEFT wD
    let wL := if rL = env.PUSHED then
        env.effect Call.decrYaw (env.effect (Call.checkButton butNames.LEFT rL) wD)
      else env.effect (Call.checkButton butNames.LEFT rL) wD
    let rR := env.checkButton butNames.RIGHT wL
    let wR := if rR = env.PUSHED then
        env.effect Call.incrYaw (env.effect (Call.checkButton butNames.RIGHT rR) wL)
      else env.effect (Call.checkButton butNames.RIGHT rR) wL
    let rS := env.checkSwitch wR
    let wS := if rS ≠ 0 then
        env.effect Call.findRefStart (env.effect (Call.checkSwitch rS) wR)
      else env.effect (Call.checkSwitch rS) wR
    let rP := env.GPIOPinRead env.GPIO_PORTA_BASE env.GPIO_PIN_6 wS
    (∃ before after : List Event,
      (loopBody env s).2.trace = s.trace ++ before ++
        [Event.enter Fn.buttonReset,
         Event.call (Call.GPIOPinRead env.GPIO_PORTA_BASE env.GPIO_PIN_6 rP)] ++ after ∧
      after = (if rP = 0 then [Event.call Call.SysCtlReset]
        else [Event.tickClear, Event.call Call.consoleMsgSpaced]) ∧
      (loopBody env s).1 = (if rP = 0 then Ctl.restart else Ctl.next) ∧
      (before ++ after).countP Event.isPinRead = 0 ∧
      (before ++ after).count (Event.enter Fn.buttonReset) = 0 ∧
      (before ++ after).count (Event.call Call.SysCtlReset) = (if rP = 0 then 1 else 0) ∧
      Event.enter Fn.buttonUp ∈ before ∧
      Event.enter Fn.buttonDown ∈ before ∧
      Event.enter Fn.buttonLeft ∈ before ∧
      Event.enter Fn.buttonRight ∈ before ∧
      Event.enter Fn.switched ∈ before ∧
      Event.tickClear ∉ before) ∧
    (∀ t : State W, (buttonReset env t).1 = Ctl.restart ↔
      env.GPIOPinRead env.GPIO_PORTA_BASE env.GPIO_PIN_6 t.world = 0) ∧
    (∀ t : State W, (buttonReset env t).2.trace = t.trace ++
      ([Event.enter Fn.buttonReset,
        Event.call (Call.GPIOPinRead env.GPIO_PORTA_BASE env.GPIO_PIN_6
          (env.GPIOPinRead env.GPIO_PORTA_BASE env.GPIO_PIN_6 t.world))] ++
        if env.GPIOPinRead env.GPIO_PORTA_BASE env.GPIO_PIN_6 t.world = 0 then
          [Event.call Call.SysCtlReset]
        else [])) := by
  intro w0 rU wU rD wD rL wL rR wR rS wS rP
  have key := loopBody_exact_vars env s h w0 rU wU rD wD rL wL rR wR rS wS rP
    rfl rfl rfl rfl rfl rfl rfl rfl rfl rfl rfl rfl
  obtain ⟨hT, hC, -⟩ := key
  clear_value rP wS rS wR rR wL rL wD rD wU rU w0
  refine ⟨⟨[Event.tickTest s.ticksCount, Event.call Call.ProcessAltData,
          Event.call Call.displayStats] ++
         ([Event.enter Fn.buttonUp, Event.call (Call.checkButton butNames.UP rU)] ++
            if rU = env.PUSHED then [Event.call Call.incrAlt] else []) ++
         ([Event.enter Fn.buttonDown, Event.call (Call.checkButton butNames.DOWN rD)] ++
            if rD = env.PUSHED then [Event.call Call.decrAlt] else []) ++
         ([Event.enter Fn.buttonLeft, Event.call (Call.checkButton butNames.LEFT rL)] ++
            if rL = env.PUSHED then [Event.call Call.decrYaw] else []) ++
         ([Event.enter Fn.buttonRight, Event.call (Call.checkButton butNames.RIGHT rR)] ++
            if rR = env.PUSHED then [Event.call Call.incrYaw] else []) ++
         ([Event.enter Fn.switched, Event.call (Call.checkSwitch rS)] ++
            if rS ≠ 0 then [Event.call Call.findRefStart] else []), _, ?_, rfl, hC, ?_⟩,
    ?_, buttonReset_trace env⟩
  · rw [hT]
    simp only [List.append_assoc]
  · simp only [List.count_append, List.count_cons, List.count_nil, List.countP_append,
      List.countP_cons, List.countP_nil, List.mem_append, List.mem_cons, List.mem_singleton,
      List.not_mem_nil, beq_iff_eq, Event.call.injEq, Event.enter.injEq,
      reduceCtorEq, if_true, if_false, apply_ite (List.count _),
      apply_ite (List.countP _), Event.isPinRead, true_and, and_true, and_false,
      false_and, or_false, false_or, or_true, true_or, Bool.false_eq_true,
      not_false_eq_true]
    split_ifs <;> simp
  · intro t
    rw [buttonReset_ctl]
    by_cases hz : env.GPIOPinRead env.GPIO_PORTA_BASE env.GPIO_PIN_6 t.world = 0 <;> simp [hz]

/-- C9 witness: two iterations with one tick pending.  In the first PA6 reads 0x40 and the
iteration ends with the store and consoleMsgSpaced; in the second PA6 reads 0 and the
iteration ends in SysCtlReset. -/
theorem reset_polled_each_tick_witness :
    0 < 1 ∧
    (∃ before : List Event,
      (loopBody (logEnv upRightPushed List.length 64)
        { ticksCount := 1, world := [], trace := [] }).2.trace = [] ++ before ++
        [Event.enter Fn.buttonReset, Event.call (Call.GPIOPinRead 0x40004000 0x40 64)] ++
        [Event.tickClear, Event.call Call.consoleMsgSpaced] ∧
      (loopBody (logEnv upRightPushed List.length 64)
        { ticksCount := 1, world := [], trace := [] }).1 = Ctl.next ∧
      Event.enter Fn.switched ∈ before) ∧
    (∃ before : List Event,
      (loopBody (logEnv upRightPushed List.length 0)
        { ticksCount := 1, world := [], trace := [] }).2.trace = [] ++ before ++
        [Event.enter Fn.buttonReset, Event.call (Call.GPIOPinRead 0x40004000 0x40 0)] ++
        [Event.call Call.SysCtlReset] ∧
      (loopBody (logEnv upRightPushed List.length 0)
        { ticksCount := 1, world := [], trace := [] }).1 = Ctl.restart ∧
      Event.enter Fn.switched ∈ before) := by
  refine ⟨by decide, ?_, ?_⟩
  · obtain ⟨⟨before, after, hT, hA, hC, -, -, -, -, -, -, -, hS, -⟩, -, -⟩ :=
      reset_polled_each_tick (logEnv upRightPushed List.length 64)
        { ticksCount := 1, world := [], trace := [] } (by decide)
    subst hA
    exact ⟨before, hT, hC, hS⟩
  · obtain ⟨⟨before, after, hT, hA, hC, -, -, -, -, -, -, -, hS, -⟩, -, -⟩ :=
      reset_polled_each_tick (logEnv upRightPushed List.length 0)
        { ticksCount := 1, world := [], trace := [] } (by decide)
    subst hA
    exact ⟨before, hT, hC, hS⟩

/-! ## Initialisation order: claim C10 -/

/-- C10: from any state initAll emits exactly this: initClock with SysCtlClockSet first,
then initialiseUSB_UART, initialiseMainPWM, initialiseTailPWM, initADC, initADCCircBuf,
initResetBut, the two peripheral resets, initButtons, initSwitch, initDisplay, initYawRef
and initYawGPIO, once each, and last initSysTick followed by IntMasterEnable, with
nothing after them; initSysTick reads the clock SysCtlClockGet returns in the world all
the earlier initialisers have produced, SysCtlClockSet first among them, sets the period
to that clock / 200, registers SysTickIntHandler and enables the interrupt and the
counter.  Whatever the schedule, the trace of main starts with this trace of initAll from
the empty trace, initAll is not called again, and the first test of ticksCount comes
right after it (unless the interrupt fires first). -/
theorem initAll_before_first_tick (env : Env W) (w : W) (sched : List Action) :
    (∀ s : State W,
      let wc := List.foldl (fun v c => env.effect c v) s.world
        [Call.SysCtlClockSet (env.SYSCTL_SYSDIV_10 ||| env.SYSCTL_USE_PLL |||
           env.SYSCTL_OSC_MAIN ||| env.SYSCTL_XTAL_16MHZ),
         Call.initialiseUSB_UART, Call.initialiseMainPWM, Call.initialiseTailPWM,
         Call.initADC, Call.initADCCircBuf,
         Call.SysCtlPeripheralEnable env.SYSCTL_PERIPH_GPIOA,
         Call.GPIOPinTypeGPIOInput env.GPIO_PORTA_BASE env.GPIO_PIN_6,
         Call.GPIOPadConfigSet env.GPIO_PORTA_BASE env.GPIO_PIN_6
           env.GPIO_STRENGTH_2MA env.GPIO_PIN_TYPE_STD_WPD,
         Call.GPIODirModeSet env.GPIO_PORTA_BASE env.GPIO_PIN_6 env.GPIO_DIR_MODE_IN,
         Call.SysCtlPeripheralReset env.LEFT_BUT_PERIPH,
         Call.SysCtlPeripheralReset env.UP_BUT_PERIPH,
         Call.initButtons, Call.initSwitch, Call.initDisplay, Call.initYawRef,
         Call.initYawGPIO]
      let clock := env.SysCtlClockGet wc
      (initAll env s).trace = s.trace ++
        [Event.enter Fn.initAll, Event.enter Fn.initClock,
         Event.call (Call.SysCtlClockSet (env.SYSCTL_SYSDIV_10 ||| env.SYSCTL_USE_PLL |||
           env.SYSCTL_OSC_MAIN ||| env.SYSCTL_XTAL_16MHZ)),
         Event.call Call.initialiseUSB_UART, Event.call Call.initialiseMainPWM,
         Event.call Call.initialiseTailPWM, Event.call Call.initADC,
         Event.call Call.initADCCircBuf, Event.enter Fn.initResetBut,
         Event.call (Call.SysCtlPeripheralEnable env.SYSCTL_PERIPH_GPIOA),
         Event.call (Call.GPIOPinTypeGPIOInput env.GPIO_PORTA_BASE env.GPIO_PIN_6),
         Event.call (Call.GPIOPadConfigSet env.GPIO_PORTA_BASE env.GPIO_PIN_6
           env.GPIO_STRENGTH_2MA env.GPIO_PIN_TYPE_STD_WPD),
         Event.call (Call.GPIODirModeSet env.GPIO_PORTA_BASE env.GPIO_PIN_6
           env.GPIO_DIR_MODE_IN),
         Event.call (Call.SysCtlPeripheralReset env.LEFT_BUT_PERIPH),
         Event.call (Call.SysCtlPeripheralReset env.UP_BUT_PERIPH),
         Event.call Call.initButtons, Event.call Call.initSwitch,
         Event.call Call.initDisplay, Event.call Call.initYawRef,
         Event.call Call.initYawGPIO,
         Event.enter Fn.initSysTick, Event.call (Call.SysCtlClockGet clock),
         Event.call (Call.SysTickPeriodSet (clock / 200)),
         Event.call (Call.SysTickIntRegister Fn.SysTickIntHandler),
         Event.call Call.SysTickIntEnable, Event.call Call.SysTickEnable,
         Event.call Call.IntMasterEnable] ∧
      (initAll env s).ticksCount = s.ticksCount ∧
      (initAll env s).world = env.effect Call.IntMasterEnable (env.effect Call.SysTickEnable
        (env.effect Call.SysTickIntEnable
          (env.effect (Call.SysTickIntRegister Fn.SysTickIntHandler)
            (env.effect (Call.SysTickPeriodSet (clock / 200))
              (env.effect (Call.SysCtlClockGet clock) wc)))))) ∧
    (∃ rest, (main env w sched).st.trace = (initAll env (State.start w)).trace ++ rest ∧
      rest.count (Event.enter Fn.initAll) = 0 ∧
      (rest.head? = none ∨ rest.head? = some (Event.tickTest 0) ∨
        rest.head? = some (Event.call Call.updateButtons))) ∧
    (State.start w).trace = [] ∧ (State.start w).ticksCount = 0 := by
  refine ⟨fun s => ?_, main_trace env w sched, rfl, rfl⟩
  intro wc clock
  refine ⟨?_, ?_, ?_⟩
  · simp only [initAll, initClock, initResetBut, initSysTick, State.emit_trace,
      State.note_trace, State.emit_world, State.note_world, List.append_assoc,
      List.singleton_append, List.cons_append, List.nil_append, SYS_TICK_RATE]
    rfl
  · simp [initAll, initClock, initResetBut, initSysTick]
  · simp only [initAll, initClock, initResetBut, initSysTick, State.emit_world,
      State.note_world, SYS_TICK_RATE]
    rfl

/-! ## The tick handoff: claim C1 -/

/-- C1, as the claim states it, fails: an interrupt can fall between the test of line 195
and the store of line 204, and its tick is then erased.  With one interrupt before the
test and one right after it, the read-reset returns 1 and leaves nothing pending although
2 interrupts have fired; a further, draining pass of the loop does not recover the tick. -/
theorem tick_lost_between_test_and_store :
    (main (fixedEnv 0 0 64) ()
        ([Action.irq, Action.bg, Action.irq] ++ List.replicate 9 Action.bg)).fired = 2 ∧
      (main (fixedEnv 0 0 64) ()
        ([Action.irq, Action.bg, Action.irq] ++ List.replicate 9 Action.bg)).returned = 1 ∧
      (main (fixedEnv 0 0 64) ()
        ([Action.irq, Action.bg, Action.irq] ++ List.replicate 9 Action.bg)).st.ticksCount = 0 ∧
      (main (fixedEnv 0 0 64) ()
        ([Action.irq, Action.bg, Action.irq] ++ List.replicate 11 Action.bg)).pc = Pc.test ∧
      (main (fixedEnv 0 0 64) ()
        ([Action.irq, Action.bg, Action.irq] ++ List.replicate 11 Action.bg)).returned = 1 ∧
      (main (fixedEnv 0 0 64) ()
        ([Action.irq, Action.bg, Action.irq] ++ List.replicate 11 Action.bg)).fired = 2 := by
  decide

/-- C1, amended: for every interleaving of interrupt firings and background statements,
at every reachable state the sum of the values returned by the completed read-resets plus
the value pending in ticksCount is at most the number of interrupts fired (no tick is
counted twice); it is equal to that number when the schedule lets no interrupt fire
between a read-reset's test (line 195) and its store (line 204) and asks for fewer than
2^32 interrupts, so that whenever nothing is pending the sum of the returned values is
the number of interrupts fired, which until a restart is the number the schedule asked
for. -/
theorem tick_handoff (env : Env W) (w : W) (sched : List Action) :
    (main env w sched).returned + (main env w sched).st.ticksCount ≤ (main env w sched).fired ∧
    (readResetUndisturbed env sched (Machine.boot env w) = true → irqCount sched < 2 ^ 32 →
      (main env w sched).returned + (main env w sched).st.ticksCount
          = (main env w sched).fired ∧
        ((main env w sched).st.ticksCount = 0 →
          (main env w sched).returned = (main env w sched).fired) ∧
        ((main env w sched).pc ≠ Pc.restarted → (main env w sched).fired = irqCount sched)) := by
  have h0 := boot_ticksCount env w
  have b1 : (Machine.boot env w).returned = 0 := rfl
  have b2 : (Machine.boot env w).fired = 0 := rfl
  have b3 : (Machine.boot env w).pc.inReadReset = false := rfl
  refine ⟨?_, fun hu hb => ?_⟩
  · exact run_le env sched _ (by omega) (fun h => by rw [b3] at h; exact absurd h (by decide))
  · have he := run_eq env sched (Machine.boot env w) (by omega)
      (fun h => by rw [b3] at h; exact absurd h (by decide)) hu
      (by rw [b2]; simpa [UINT32_MOD] using hb)
    refine ⟨he, fun hz => ?_, fun hr => ?_⟩
    · unfold main at hz ⊢
      omega
    · have := run_fired env sched (Machine.boot env w) hr
      unfold main
      omega

/-- C1 witness: three interrupts and two complete passes of the loop, none of the
interrupts between a test and its store. -/
theorem tick_handoff_witness :
    (readResetUndisturbed (fixedEnv 0 0 64)
        ([Action.irq, Action.irq] ++ List.replicate 10 Action.bg ++ [Action.irq] ++
          List.replicate 11 Action.bg) (Machine.boot (fixedEnv 0 0 64) ()) = true ∧
      irqCount ([Action.irq, Action.irq] ++ List.replicate 10 Action.bg ++ [Action.irq] ++
          List.replicate 11 Action.bg) < 2 ^ 32) ∧
      (main (fixedEnv 0 0 64) () ([Action.irq, Action.irq] ++ List.replicate 10 Action.bg ++
        [Action.irq] ++ List.replicate 11 Action.bg)).returned +
      (main (fixedEnv 0 0 64) () ([Action.irq, Action.irq] ++ List.replicate 10 Action.bg ++
        [Action.irq] ++ List.replicate 11 Action.bg)).st.ticksCount =
      (main (fixedEnv 0 0 64) () ([Action.irq, Action.irq] ++ List.replicate 10 Action.bg ++
        [Action.irq] ++ List.replicate 11 Action.bg)).fired :=
  ⟨⟨by decide, by decide⟩,
   ((tick_handoff (fixedEnv 0 0 64) () ([Action.irq, Action.irq] ++
      List.replicate 10 Action.bg ++ [Action.irq] ++ List.replicate 11 Action.bg)).2
      (by decide) (by decide)).1⟩

end Helicopter
